import Mathlib

/-!
Hospital reception dashboard: a shallow embedding of `app.js` and `script.js`

The in-memory store `hospitalData`, the configuration record `CONFIG`, the
parts of the page the handlers read and write (search boxes, filters, table
bodies, pagination bars, the notification log) and the functions of `app.js`
that compute on them are translated to Lean definitions, and so is
`fetchData` of `script.js` with the tables and counters it fills.

Modelling conventions.

* A JavaScript number held by the application is an integer or `NaN`
  (`JsNum`, `none` standing for `NaN`); identifiers of stored records are
  integers, as in the data model. Where the code adds to an identifier or
  parses digits the result is rounded as a double is (`roundToDouble`):
  exact up to magnitude `2 ^ 53`, to the nearest double beyond it.
* A plain JavaScript object used as a string-keyed table is the list of
  its own entries (`JsObject`); an assignment under the key `__proto__`
  stores no entry.
* A collection is the list of the elements of its array together with the
  side attributes `sortTable` sets on the array object.
* An `async` handler runs to completion in one step; what the network
  answered is an argument of the handler (`ReadOutcome`, `WriteOutcome`) and
  every request it sends is appended to a log. Where a caller has a `catch`
  of its own, the awaited function is given with its `try` block and its
  `catch` handler (`Completion`).
* A field of a read response is missing, falsy, or an array of records.
* `Array.prototype.sort` is the stable sort its specification fixes for a
  consistent comparator; strings compare by UTF-16 code units.
* The page elements the code looks up with `getElementById` exist, and a
  submitted form has a string for every control the handler reads.
* `showToast` is a log of notifications, the last entry being the one shown.
-/

namespace Hospital

/-! ## JavaScript values -/

/-- A JavaScript number of the application: `some n` is the integer `n`,
`none` is `NaN`. -/
abbrev JsNum := Option Int

/-- The comparison `a < b` of a number with an integer literal; every
comparison with `NaN` is false. -/
def jsLt (a : JsNum) (b : Int) : Bool :=
  match a with
  | some n => decide (n < b)
  | none => false

/-- Strict equality `a === b` of an integer with a number; `NaN` equals
nothing. -/
def jsStrictEq (a : Int) (b : JsNum) : Bool :=
  match b with
  | some n => a == n
  | none => false

/-- The method `Number.prototype.toString` on an integer or `NaN`. -/
def jsNumToString (a : JsNum) : String :=
  match a with
  | some n => toString n
  | none => "NaN"

/-- The own entries of a plain JavaScript object `{}` that holds counts
under string keys, listed in insertion order. -/
abbrev JsObject := List (String × Nat)

/-- Writing the own entry `k` of an object: an existing key keeps its place
and takes the new value, a new key is added at the end. -/
def JsObject.put (o : JsObject) (k : String) (v : Nat) : JsObject :=
  if o.any (fun e => e.1 == k) then
    o.map (fun e => if e.1 == k then (k, v) else e)
  else
    o ++ [(k, v)]

/-- The assignment `o[k] = v` of a number on a plain object. Under the key
`__proto__` the assignment reaches the setter that `Object.prototype`
defines for that key, which ignores a value that is not an object: nothing
is stored. Under every other key the own entry is written. -/
def JsObject.set (o : JsObject) (k : String) (v : Nat) : JsObject :=
  if k = "__proto__" then o else o.put k v

/-- The own entry of the object under the key `k`; `none` is no entry. -/
def JsObject.get (o : JsObject) (k : String) : Option Nat :=
  (o.find? (fun e => e.1 == k)).map Prod.snd

/-- The list form of `Array.prototype.slice(start, stop)`: a negative index
counts from the end, both indices are clamped to the length, and the result
is empty when the clamped stop is not past the clamped start. -/
def jsSlice {α : Type} (xs : List α) (start stop : Int) : List α :=
  let len : Int := xs.length
  let k : Int := if start < 0 then max (len + start) 0 else min start len
  let final : Int := if stop < 0 then max (len + stop) 0 else min stop len
  (xs.drop k.toNat).take (final - k).toNat

/-- The method `String.prototype.toLowerCase`, on the ASCII letters; a
cased letter outside ASCII, which JavaScript lowers too, is left as it is.
What is proved about the filters holds for any case mapping. -/
def toLowerCase (s : String) : String :=
  String.mk (s.data.map Char.toLower)

/-- Whether the character list `t` starts the character list `s`. -/
def startsWithChars : List Char → List Char → Bool
  | _, [] => true
  | [], _ :: _ => false
  | c :: s, d :: t => c == d && startsWithChars s t

/-- Whether `t` occurs in `s` as a contiguous run of characters. -/
def includesChars : List Char → List Char → Bool
  | [], t => t.isEmpty
  | c :: s, t => startsWithChars (c :: s) t || includesChars s t

/-- The method `String.prototype.includes`. -/
def includes (s t : String) : Bool :=
  includesChars s.data t.data

/-- How many times a natural number is halved before it is below `2 ^ 53`:
the number of low bits that do not fit the 53-bit significand of a double. -/
def excessBits : Nat → Nat → Nat
  | 0, _ => 0
  | fuel + 1, m => if m < 2 ^ 53 then 0 else 1 + excessBits fuel (m / 2)

/-- The integer a double holds for the exact integer `n`: `n` itself up to
magnitude `2 ^ 53`, and beyond it the nearest multiple of the spacing
`2 ^ e` of the doubles around `n`, a tie going to the even significand.
Magnitudes from `2 ^ 1024` on, where a double is `Infinity`, are outside
the model. -/
def roundToDouble (n : Int) : Int :=
  if n.natAbs ≤ 2 ^ 53 then n
  else
    let e := excessBits n.natAbs n.natAbs
    let q := n.natAbs / 2 ^ e
    let r := n.natAbs % 2 ^ e
    let half := 2 ^ (e - 1)
    let q2 := if half < r ∨ (r = half ∧ q % 2 = 1) then q + 1 else q
    if n < 0 then -((q2 * 2 ^ e : Nat) : Int) else ((q2 * 2 ^ e : Nat) : Int)

/-- The sum `a + b` of two numbers that hold integers: the exact sum,
rounded to a double. -/
def jsAdd (a b : Int) : Int :=
  roundToDouble (a + b)

/-- The white space that `parseInt` skips at the start of its argument. -/
def isStrWhiteSpace (c : Char) : Bool :=
  let n := c.toNat
  n == 0x09 || n == 0x0A || n == 0x0B || n == 0x0C || n == 0x0D || n == 0x20 ||
  n == 0xA0 || n == 0x1680 || (0x2000 ≤ n && n ≤ 0x200A) || n == 0x2028 ||
  n == 0x2029 || n == 0x202F || n == 0x205F || n == 0x3000 || n == 0xFEFF

/-- The value of a character as a digit, in any radix up to 36. -/
def digitValue (c : Char) : Option Nat :=
  let n := c.toNat
  if 48 ≤ n ∧ n ≤ 57 then some (n - 48)
  else if 97 ≤ n ∧ n ≤ 122 then some (n - 87)
  else if 65 ≤ n ∧ n ≤ 90 then some (n - 55)
  else none

/-- The longest run of digits of the radix at the start of the characters,
read as a number; `acc` is `none` until a first digit is read. -/
def parseDigits (radix : Nat) : List Char → Option Nat → Option Nat
  | [], acc => acc
  | c :: cs, acc =>
    match digitValue c with
    | some d => if d < radix then parseDigits radix cs (some (acc.getD 0 * radix + d)) else acc
    | none => acc

/-- The function `parseInt` with no radix argument: leading white space and
one sign are skipped, `0x` selects radix 16, the digits that follow are read
and their value is rounded to a double, and the result is `NaN` when there is
no digit. Past twenty decimal digits an implementation may approximate the
value before rounding; the model rounds the exact value. -/
def parseInt (s : String) : JsNum :=
  let cs := s.data.dropWhile isStrWhiteSpace
  let signed : Bool × List Char :=
    match cs with
    | '-' :: r => (true, r)
    | '+' :: r => (false, r)
    | _ => (false, cs)
  let based : Nat × List Char :=
    match signed.2 with
    | '0' :: 'x' :: r => (16, r)
    | '0' :: 'X' :: r => (16, r)
    | _ => (10, signed.2)
  match parseDigits based.1 based.2 none with
  | some n => some (roundToDouble (if signed.1 then -(n : Int) else (n : Int)))
  | none => none

/-- The call `Math.max(x, ...xs)` on integers. -/
def mathMax (x : Int) (xs : List Int) : Int :=
  xs.foldl max x

/-- The identifier expression of the add handlers,
`ids.length > 0 ? Math.max(...ids) + 1 : 1`. -/
def maxPlusOne (ids : List Int) : Int :=
  match ids with
  | [] => 1
  | x :: xs => jsAdd (mathMax x xs) 1

/-- The call `Math.ceil(n / d)` on non-negative integers, `d` positive. -/
def mathCeilDiv (n d : Nat) : Nat :=
  (n + (d - 1)) / d

/-! ## The data model -/

/-- A record of the `patients` collection. -/
structure Patient where
  patient_id : Int
  first_name : String
  last_name : String
  gender : String
  age : JsNum
  phone : String
  address : String
  blood_group : String
  status : String
deriving DecidableEq, Repr

/-- A record of the `doctors` collection. -/
structure Doctor where
  doctor_id : Int
  name : String
  department : String
  specialist : String
  phone : String
  available : Bool
deriving DecidableEq, Repr

/-- A record of the `departments` collection. -/
structure Department where
  name : String
  description : String
  icon : String
  total_doctors : Int
deriving DecidableEq, Repr

/-- A record of the `appointments` collection. The two references are what
`parseInt` made of the form selections. -/
structure Appointment where
  appt_id : Int
  patient_id : JsNum
  doctor_id : JsNum
  date : String
  time : String
  treatment : String
  status : String
  notes : String
deriving DecidableEq, Repr

/-- The object `patient_age_distribution`. -/
structure AgeDistribution where
  Child : Nat
  Adult : Nat
  Elderly : Nat
deriving DecidableEq, Repr

/-- The object `hospitalData.analytics`; the weekly and monthly series are
static placeholders that no function of the program writes. -/
structure Analytics where
  patient_age_distribution : AgeDistribution
  patient_department_distribution : JsObject
deriving DecidableEq, Repr

/-- The side attributes `_sortColumn` and `_sortOrder` that `sortTable` sets
on a collection array; `none` is an attribute the array does not have. -/
structure SortState where
  _sortColumn : Option String := none
  _sortOrder : Option String := none
deriving DecidableEq, Repr

/-- The store `hospitalData`. Each collection is an array, held as the list
of its elements together with the side attributes of the array object. -/
structure HospitalData where
  patients : List Patient
  doctors : List Doctor
  departments : List Department
  appointments : List Appointment
  analytics : Analytics
  patientsSort : SortState := {}
  doctorsSort : SortState := {}
  departmentsSort : SortState := {}
  appointmentsSort : SortState := {}
deriving DecidableEq, Repr

/-! ## Analytics -/

/-- One step of the `forEach` over the patients in `updateAnalytics`: the
first test that holds names the bucket that is incremented. -/
def countAge (d : AgeDistribution) (p : Patient) : AgeDistribution :=
  if jsLt p.age 18 then { d with Child := d.Child + 1 }
  else if jsLt p.age 60 then { d with Adult := d.Adult + 1 }
  else { d with Elderly := d.Elderly + 1 }

/-- The callback of `appointments.filter` in `updateAnalytics`:
`doctor && doctor.department === name`, the doctor being the first one whose
`doctor_id` is strictly equal to the appointment's. -/
def doctorInDepartment (doctors : List Doctor) (name : String) (a : Appointment) : Bool :=
  match doctors.find? (fun doc => jsStrictEq doc.doctor_id a.doctor_id) with
  | some doctor => doctor.department == name
  | none => false

/-- One step of the `forEach` over the departments in `updateAnalytics`. -/
def countDepartment (doctors : List Doctor) (appointments : List Appointment)
    (o : JsObject) (d : Department) : JsObject :=
  let count := (appointments.filter (doctorInDepartment doctors d.name)).length
  if count > 0 then o.set d.name count else o

/-- The function `updateAnalytics`: both distributions are reset and rebuilt
from the collections. -/
def updateAnalytics (h : HospitalData) : HospitalData :=
  { h with analytics :=
      { h.analytics with
        patient_age_distribution := h.patients.foldl countAge ⟨0, 0, 0⟩
        patient_department_distribution :=
          h.departments.foldl (countDepartment h.doctors h.appointments) [] } }

/-! ## The configuration, the page and the environment -/

/-- The record `CONFIG`. -/
structure Config where
  GOOGLE_SCRIPT_URL : String
  SPREADSHEET_ID : String
  USE_GOOGLE_SHEETS : Bool
deriving DecidableEq, Repr

/-- One call of `showToast(message, type)`. -/
structure Toast where
  message : String
  type : String
deriving DecidableEq, Repr

/-- The record sent with a write request. -/
inductive SheetRecord where
  | patient (p : Patient)
  | appointment (a : Appointment)
deriving DecidableEq, Repr

/-- A request handed to `fetch`: the read `GET url`, or the write `POST url`
with body `{ sheet, action, data }`. -/
inductive Request where
  | get (url : String)
  | post (url : String) (sheet : String) (action : String) (data : SheetRecord)
deriving DecidableEq, Repr

/-- A field of a parsed read response: the response does not have it, it
holds a falsy value (`null`, `false`, `0` or the empty string), or it holds
an array. A truthy value that is not an array is outside the model. -/
inductive ResponseField (α : Type) where
  | absent
  | falsy
  | array (xs : List α)
deriving DecidableEq, Repr

/-- The fields of a parsed read response. -/
structure LoadData where
  patients : ResponseField Patient
  doctors : ResponseField Doctor
  appointments : ResponseField Appointment
  departments : ResponseField Department
deriving DecidableEq, Repr

/-- What the network answered to a read request: `fetch` rejected, the
status was not ok, the body was not JSON, or the body parsed to `data`. -/
inductive ReadOutcome where
  | rejected
  | notOk
  | badJson
  | ok (data : LoadData)
deriving DecidableEq, Repr

/-- What the network answered to a write request, `success` being the
flag of the parsed body. -/
inductive WriteOutcome where
  | rejected
  | notOk
  | badJson
  | ok (success : Bool)
deriving DecidableEq, Repr

/-- The two paginated lists, the `type` argument of `renderPagination`. -/
inductive ListKind where
  | patients
  | appointments
deriving DecidableEq, Repr

/-- The content of a table body: the empty-state block with its heading and
text, or data rows. -/
inductive TableBody (ρ : Type) where
  | emptyState (heading : String) (text : String)
  | rows (rs : List ρ)
deriving DecidableEq, Repr

/-- The data rows a table body shows. -/
def TableBody.dataRows {ρ : Type} : TableBody ρ → List ρ
  | .emptyState _ _ => []
  | .rows rs => rs

/-- The cells of a row of the patients table. -/
structure PatientRow where
  patient_id : Int
  name : String
  age : JsNum
  gender : String
  phone : String
  blood_group : String
  statusClass : String
  status : String
deriving DecidableEq, Repr

/-- The cells of a row of the appointments table. -/
structure AppointmentRow where
  appt_id : Int
  patient : String
  doctor : String
  date : String
  time : String
  treatment : String
  statusClass : String
  status : String
deriving DecidableEq, Repr

/-- The cells of a row of the recent-appointments table of the dashboard. -/
structure RecentRow where
  patient : String
  doctor : String
  treatment : String
  date : String
  time : String
  statusClass : String
  status : String
deriving DecidableEq, Repr

/-- One button of a pagination bar: its label `number`, whether it carries
the class `active`, and the list its click re-renders at page `number`. -/
structure PageButton where
  number : Nat
  active : Bool
  renders : ListKind
deriving DecidableEq, Repr

/-- The object `currentPage`. -/
structure CurrentPage where
  patients : Int
  appointments : Int
deriving DecidableEq, Repr

/-- The elements of the page that the modelled functions read or write. -/
structure Page where
  patientSearch : String
  patientStatusFilter : String
  appointmentSearch : String
  appointmentStatusFilter : String
  appointmentDoctorFilter : String
  doctorFilterPopulated : Bool
  googleScriptUrl : String
  patientsTable : TableBody PatientRow
  patientsPagination : List PageButton
  appointmentsTable : TableBody AppointmentRow
  appointmentsPagination : List PageButton
  recentAppointmentsTable : TableBody RecentRow
deriving DecidableEq, Repr

/-- The whole state of the running page. -/
structure App where
  config : Config
  hospitalData : HospitalData
  currentView : String
  currentPage : CurrentPage
  page : Page
  toasts : List Toast
  requests : List Request
deriving DecidableEq, Repr

/-- The values a submitted form gives for its named controls
(`formData.get(name)`); an empty control gives the empty string. -/
abbrev FormData := String → String

/-- The constant `itemsPerPage`. -/
def itemsPerPage : Nat := 10

/-- The function `showToast`. -/
def showToast (message type : String) (s : App) : App :=
  { s with toasts := s.toasts ++ [⟨message, type⟩] }

/-! ## Pagination -/

/-- The value `currentPage[type] || 1`. -/
def currentPageNum (type : ListKind) (s : App) : Int :=
  let n := match type with
    | .patients => s.currentPage.patients
    | .appointments => s.currentPage.appointments
  if n = 0 then 1 else n

/-- The buttons `renderPagination` builds: none when there is at most one
page, otherwise one per page `i` from 1 to `totalPages`. -/
def paginationButtons (type : ListKind) (totalItems : Nat) (s : App) : List PageButton :=
  let totalPages := mathCeilDiv totalItems itemsPerPage
  if totalPages ≤ 1 then []
  else (List.range' 1 totalPages).map
    (fun i => { number := i, active := ((i : Int) == currentPageNum type s), renders := type })

/-- The function `renderPagination`. -/
def renderPagination (type : ListKind) (totalItems : Nat) (s : App) : App :=
  match type with
  | .patients =>
    { s with page := { s.page with patientsPagination := paginationButtons type totalItems s } }
  | .appointments =>
    { s with page := { s.page with appointmentsPagination := paginationButtons type totalItems s } }

/-- The content of the container `${type}Pagination`. -/
def paginationOf (type : ListKind) (s : App) : List PageButton :=
  match type with
  | .patients => s.page.patientsPagination
  | .appointments => s.page.appointmentsPagination

/-- The slice `filtered.slice(start, end)` of the two list renderers, with
`start = (page - 1) * itemsPerPage` and `end = start + itemsPerPage`. -/
def paginate {α : Type} (page : Int) (filtered : List α) : List α :=
  let start : Int := (page - 1) * itemsPerPage
  let stop : Int := start + itemsPerPage
  jsSlice filtered start stop

/-! ## The patients list -/

/-- The search callback of `renderPatients`. -/
def patientMatches (searchTerm : String) (p : Patient) : Bool :=
  includes (toLowerCase p.first_name) searchTerm ||
  includes (toLowerCase p.last_name) searchTerm ||
  includes (toString p.patient_id) searchTerm

/-- The variable `filtered` of `renderPatients`, from the values of the
search box and of the status selector. -/
def filterPatients (searchValue statusValue : String) (patients : List Patient) : List Patient :=
  let searchTerm := toLowerCase searchValue
  let bySearch :=
    if searchTerm ≠ "" then patients.filter (patientMatches searchTerm) else patients
  let statusFilter := if statusValue ≠ "" then statusValue else "all"
  if statusFilter ≠ "all" then bySearch.filter (fun p => p.status == statusFilter) else bySearch

/-- The method call `str.replace(' ', '-')`: the first space is replaced. -/
def replaceFirstSpace : List Char → List Char
  | [] => []
  | c :: cs => if c = ' ' then '-' :: cs else c :: replaceFirstSpace cs

/-- The text shown for a `gender` code. -/
def genderLabel (g : String) : String :=
  if g = "M" then "Male" else if g = "F" then "Female" else "Other"

/-- The table row `renderPatients` builds for a patient. -/
def patientRow (p : Patient) : PatientRow :=
  { patient_id := p.patient_id
    name := p.first_name ++ " " ++ p.last_name
    age := p.age
    gender := genderLabel p.gender
    phone := p.phone
    blood_group := p.blood_group
    statusClass := "status-" ++ String.mk (replaceFirstSpace (toLowerCase p.status).data)
    status := p.status }

/-- The function `renderPatients`. -/
def renderPatients (page : Int) (s : App) : App :=
  let s := { s with currentPage := { s.currentPage with patients := page } }
  if s.hospitalData.patients.length = 0 then
    { s with page := { s.page with
        patientsTable := .emptyState "No Patients Yet"
          "Click \"+ Add Patient\" button above to register your first patient"
        patientsPagination := [] } }
  else
    let filtered :=
      filterPatients s.page.patientSearch s.page.patientStatusFilter s.hospitalData.patients
    let paginatedData := paginate page filtered
    let s := { s with page := { s.page with
      patientsTable := .rows (paginatedData.map patientRow) } }
    renderPagination .patients filtered.length s

/-! ## The appointments list -/

/-- The lookup `hospitalData.patients.find(p => p.patient_id === id)`. -/
def findPatient (patients : List Patient) (id : JsNum) : Option Patient :=
  patients.find? (fun p => jsStrictEq p.patient_id id)

/-- The lookup `hospitalData.doctors.find(d => d.doctor_id === id)`. -/
def findDoctor (doctors : List Doctor) (id : JsNum) : Option Doctor :=
  doctors.find? (fun d => jsStrictEq d.doctor_id id)

/-- The search callback of `renderAppointments`. -/
def appointmentMatches (h : HospitalData) (searchTerm : String) (a : Appointment) : Bool :=
  (match findPatient h.patients a.patient_id with
    | some patient =>
      includes (toLowerCase patient.first_name) searchTerm ||
      includes (toLowerCase patient.last_name) searchTerm
    | none => false) ||
  (match findDoctor h.doctors a.doctor_id with
    | some doctor => includes (toLowerCase doctor.name) searchTerm
    | none => false) ||
  includes (toLowerCase a.treatment) searchTerm

/-- The variable `filtered` of `renderAppointments`, from the values of the
search box, the status selector and the doctor selector. -/
def filterAppointments (h : HospitalData) (searchValue statusValue doctorValue : String) :
    List Appointment :=
  let searchTerm := toLowerCase searchValue
  let bySearch :=
    if searchTerm ≠ "" then h.appointments.filter (appointmentMatches h searchTerm)
    else h.appointments
  let statusFilter := if statusValue ≠ "" then statusValue else "all"
  let byStatus :=
    if statusFilter ≠ "all" then bySearch.filter (fun a => a.status == statusFilter)
    else bySearch
  let doctorFilter := if doctorValue ≠ "" then doctorValue else "all"
  if doctorFilter ≠ "all" then
    byStatus.filter (fun a => jsNumToString a.doctor_id == doctorFilter)
  else byStatus

/-- The patient cell of an appointment row. -/
def patientCell (h : HospitalData) (appt : Appointment) : String :=
  match findPatient h.patients appt.patient_id with
  | some patient => patient.first_name ++ " " ++ patient.last_name
  | none => "N/A"

/-- The doctor cell of an appointment row. -/
def doctorCell (h : HospitalData) (appt : Appointment) : String :=
  match findDoctor h.doctors appt.doctor_id with
  | some doctor => doctor.name
  | none => "N/A"

/-- The table row `renderAppointments` builds for an appointment. -/
def appointmentRow (h : HospitalData) (appt : Appointment) : AppointmentRow :=
  { appt_id := appt.appt_id
    patient := patientCell h appt
    doctor := doctorCell h appt
    date := appt.date
    time := appt.time
    treatment := appt.treatment
    statusClass := "status-" ++ toLowerCase appt.status
    status := appt.status }

/-- The function `renderAppointments`. -/
def renderAppointments (page : Int) (s : App) : App :=
  let s := { s with currentPage := { s.currentPage with appointments := page } }
  if s.hospitalData.appointments.length = 0 then
    { s with page := { s.page with
        appointmentsTable := .emptyState "No Appointments Scheduled"
          "Click \"+ New Appointment\" to schedule your first appointment"
        appointmentsPagination := [] } }
  else
    let filtered := filterAppointments s.hospitalData s.page.appointmentSearch
      s.page.appointmentStatusFilter s.page.appointmentDoctorFilter
    let paginatedData := paginate page filtered
    let s := { s with page := { s.page with
      appointmentsTable := .rows (paginatedData.map (appointmentRow s.hospitalData)) } }
    renderPagination .appointments filtered.length s

/-! ## The dashboard and the view router -/

/-- The table row `loadRecentAppointments` builds for an appointment. -/
def recentRow (h : HospitalData) (appt : Appointment) : RecentRow :=
  { patient := patientCell h appt
    doctor := doctorCell h appt
    treatment := appt.treatment
    date := appt.date
    time := appt.time
    statusClass := "status-" ++ toLowerCase appt.status
    status := appt.status }

/-- The function `loadRecentAppointments`. -/
def loadRecentAppointments (s : App) : App :=
  if s.hospitalData.appointments.length = 0 then
    { s with page := { s.page with
        recentAppointmentsTable := .emptyState "No Appointments Yet"
          "Schedule your first appointment to get started" } }
  else
    let recent := jsSlice s.hospitalData.appointments 0 5
    { s with page := { s.page with
        recentAppointmentsTable := .rows (recent.map (recentRow s.hospitalData)) } }

/-- The function `loadDashboard`; the statistic counters and the charts it
also refreshes are not part of the modelled page. -/
def loadDashboard (s : App) : App :=
  loadRecentAppointments { s with hospitalData := updateAnalytics s.hospitalData }

/-- The function `loadPatients`; registering the listeners leaves the
modelled page as it is. -/
def loadPatients (s : App) : App :=
  renderPatients 1 s

/-- The function `loadAppointments`: on its first run the doctor selector
is filled, which selects its first option `all`. -/
def loadAppointments (s : App) : App :=
  let s :=
    if s.page.doctorFilterPopulated then s
    else { s with page := { s.page with
      appointmentDoctorFilter := "all", doctorFilterPopulated := true } }
  renderAppointments 1 s

/-- The function `showView`; the doctors, departments and schedule loaders
write nothing of the modelled page. -/
def showView (viewName : String) (s : App) : App :=
  let s := { s with currentView := viewName }
  if viewName = "dashboard" then loadDashboard s
  else if viewName = "patients" then loadPatients s
  else if viewName = "appointments" then loadAppointments s
  else s

/-! ## The remote store client -/

/-- Whether the guard `!CONFIG.USE_GOOGLE_SHEETS || !CONFIG.GOOGLE_SCRIPT_URL`
lets a request through. -/
def sheetsConfigured (c : Config) : Bool :=
  c.USE_GOOGLE_SHEETS && c.GOOGLE_SCRIPT_URL ≠ ""

/-- The assignments `if (data.x) hospitalData.x = data.x` of
`loadDataFromSheets` on a parsed response: a field that holds an array (a
truthy value) replaces the collection by that array, which carries no side
attribute; a missing field and a falsy one leave the collection as it is. -/
def applyLoadData (data : LoadData) (h : HospitalData) : HospitalData :=
  let h := match data.patients with
    | .array ps => { h with patients := ps, patientsSort := {} }
    | _ => h
  let h := match data.doctors with
    | .array ds => { h with doctors := ds, doctorsSort := {} }
    | _ => h
  let h := match data.appointments with
    | .array as => { h with appointments := as, appointmentsSort := {} }
    | _ => h
  match data.departments with
  | .array ds => { h with departments := ds, departmentsSort := {} }
  | _ => h

/-- The function `loadDataFromSheets`, `r` being the answer to its read
request. -/
def loadDataFromSheets (r : ReadOutcome) (s : App) : App :=
  if ¬ sheetsConfigured s.config then s
  else
    let s := showToast "Syncing data from Google Sheets..." "info" s
    let s := { s with requests := s.requests ++ [.get (s.config.GOOGLE_SCRIPT_URL ++ "?action=load")] }
    match r with
    | .ok data =>
      let s := { s with hospitalData := updateAnalytics (applyLoadData data s.hospitalData) }
      let s := showToast "Data synced successfully!" "success" s
      showView s.currentView s
    | _ => showToast "Failed to sync data from Google Sheets" "error" s

/-- The function `saveToSheets`, `w` being the answer to its write request;
the result pairs the returned flag with the state. -/
def saveToSheets (sheet action : String) (data : SheetRecord) (w : WriteOutcome) (s : App) :
    Bool × App :=
  if ¬ sheetsConfigured s.config then (true, s)
  else
    let s := { s with requests := s.requests ++ [.post s.config.GOOGLE_SCRIPT_URL sheet action data] }
    match w with
    | .ok success => (success, s)
    | _ => (false, showToast "Failed to sync with Google Sheets" "error" s)

/-! ## The form handlers -/

/-- The record `newPatient` of `handleAddPatient`. -/
def newPatient (formData : FormData) (h : HospitalData) : Patient :=
  { patient_id := maxPlusOne (h.patients.map (fun p => p.patient_id))
    first_name := formData "first_name"
    last_name := formData "last_name"
    gender := formData "gender"
    age := parseInt (formData "age")
    phone := formData "phone"
    address := formData "address"
    blood_group := formData "blood_group"
    status := "New Patient" }

/-- The function `handleAddPatient`, `w` being the answer to the write
request it may send; the submit button, the modal and the form reset are not
part of the modelled page. -/
def handleAddPatient (formData : FormData) (w : WriteOutcome) (s : App) : App :=
  let p := newPatient formData s.hospitalData
  let s := { s with hospitalData :=
    { s.hospitalData with patients := s.hospitalData.patients ++ [p] } }
  let s := if s.config.USE_GOOGLE_SHEETS then (saveToSheets "Patients" "add" (.patient p) w s).2 else s
  let s := { s with hospitalData := updateAnalytics s.hospitalData }
  let s := renderPatients 1 s
  showToast "Patient added successfully!" "success" s

/-- The record `newAppointment` of `handleAddAppointment`. -/
def newAppointment (formData : FormData) (h : HospitalData) : Appointment :=
  { appt_id := maxPlusOne (h.appointments.map (fun a => a.appt_id))
    patient_id := parseInt (formData "patient_id")
    doctor_id := parseInt (formData "doctor_id")
    date := formData "date"
    time := formData "time"
    treatment := formData "treatment"
    status := "Pending"
    notes := if formData "notes" ≠ "" then formData "notes" else "" }

/-- The function `handleAddAppointment`, `w` being the answer to the write
request it may send. -/
def handleAddAppointment (formData : FormData) (w : WriteOutcome) (s : App) : App :=
  if formData "patient_id" = "" ∨ formData "doctor_id" = "" then
    showToast "Please select both patient and doctor" "warning" s
  else
    let a := newAppointment formData s.hospitalData
    let s := { s with hospitalData :=
      { s.hospitalData with appointments := s.hospitalData.appointments ++ [a] } }
    let s := if s.config.USE_GOOGLE_SHEETS then
      (saveToSheets "Appointments" "add" (.appointment a) w s).2 else s
    let s := { s with hospitalData := updateAnalytics s.hospitalData }
    let s := renderAppointments 1 s
    showToast "Appointment scheduled successfully!" "success" s

/-! ## Specification vocabulary for the reference cells -/

/-- The patient cell in the words of the specification: `N/A` when no
patient carries the identifier `id`, otherwise the first and last name of the
first patient that carries it. -/
def IsPatientCell (patients : List Patient) (id : JsNum) (cell : String) : Prop :=
  ((∀ p ∈ patients, id ≠ some p.patient_id) ∧ cell = "N/A") ∨
  ∃ before p after, patients = before ++ p :: after ∧
    (∀ q ∈ before, id ≠ some q.patient_id) ∧ id = some p.patient_id ∧
    cell = p.first_name ++ " " ++ p.last_name

/-- The doctor cell in the words of the specification: `N/A` when no doctor
carries the identifier `id`, otherwise the name of the first doctor that
carries it. -/
def IsDoctorCell (doctors : List Doctor) (id : JsNum) (cell : String) : Prop :=
  ((∀ d ∈ doctors, id ≠ some d.doctor_id) ∧ cell = "N/A") ∨
  ∃ before d after, doctors = before ++ d :: after ∧
    (∀ q ∈ before, id ≠ some q.doctor_id) ∧ id = some d.doctor_id ∧
    cell = d.name

/-! ## The settings view -/

/-- The method `String.prototype.trim`: white space is removed at both
ends. -/
def trim (s : String) : String :=
  String.mk ((s.data.dropWhile isStrWhiteSpace).reverse.dropWhile isStrWhiteSpace).reverse

/-- How a block of statements ends: the state it leaves and, when it threw,
the message of the exception. -/
structure Completion where
  state : App
  thrown : Option String

/-- The `try` block of `loadDataFromSheets`, `r` being the answer to its
read request: a rejected `fetch`, the `throw` on a status that is not ok and
a body that does not parse leave the block with an exception. -/
def loadDataFromSheetsTry (r : ReadOutcome) (s : App) : Completion :=
  let s := showToast "Syncing data from Google Sheets..." "info" s
  let s := { s with requests := s.requests ++ [.get (s.config.GOOGLE_SCRIPT_URL ++ "?action=load")] }
  match r with
  | .rejected => { state := s, thrown := some "TypeError: Failed to fetch" }
  | .notOk => { state := s, thrown := some "Error: Failed to load data" }
  | .badJson => { state := s, thrown := some "SyntaxError: Unexpected token" }
  | .ok data =>
    let s := { s with hospitalData := updateAnalytics (applyLoadData data s.hospitalData) }
    let s := showToast "Data synced successfully!" "success" s
    { state := showView s.currentView s, thrown := none }

/-- The whole body of `loadDataFromSheets` with its `try` and `catch`: what
the promise it returns settles to, `thrown` being a rejection. -/
def loadDataFromSheetsAwait (r : ReadOutcome) (s : App) : Completion :=
  if ¬ sheetsConfigured s.config then { state := s, thrown := none }
  else
    let c := loadDataFromSheetsTry r s
    match c.thrown with
    | none => c
    | some _ =>
      { state := showToast "Failed to sync data from Google Sheets" "error" c.state
        thrown := none }

/-- The function `updateStorageStatus`; the status labels it writes are not
part of the modelled page. -/
def updateStorageStatus (s : App) : App := s

/-- The function `testGoogleSheetsConnection`, `r` being the answer to the
read request of the `loadDataFromSheets` call it awaits. -/
def testGoogleSheetsConnection (r : ReadOutcome) (s : App) : App :=
  let url := trim s.page.googleScriptUrl
  if url = "" then showToast "Please enter Google Apps Script URL" "warning" s
  else
    let s := showToast "Testing connection..." "info" s
    let s := { s with config :=
      { s.config with GOOGLE_SCRIPT_URL := url, USE_GOOGLE_SHEETS := true } }
    let c := loadDataFromSheetsAwait r s
    match c.thrown with
    | none => showToast "Connection successful!" "success" (updateStorageStatus c.state)
    | some _ =>
      showToast "Connection failed. Check URL and try again." "error"
        { c.state with config := { c.state.config with USE_GOOGLE_SHEETS := false } }

/-! ## The sheet tables of `script.js` -/

/-- A cell of a sheet row in a response: a string, an integer, or `null`. -/
inductive CellValue where
  | text (s : String)
  | number (n : Int)
  | null
deriving DecidableEq, Repr

/-- The text a table cell shows after `td.textContent = cell`. -/
def cellText : CellValue → String
  | .text s => s
  | .number n => toString n
  | .null => ""

/-- The parsed body of the response to a `get` request of `script.js`. -/
structure SheetResponse where
  status : String
  data : List (List CellValue)
deriving DecidableEq, Repr

/-- The elements of the page of `script.js` that `fetchData` writes: the
body of each table, by table id, as rows of cell texts, and the three
counters. -/
structure SheetPage where
  tbody : String → List (List String)
  totalPatients : String
  totalDoctors : String
  totalAppointments : String

/-- The function `fetchData` of `script.js`, `res` being the parsed body of
the response to its request. -/
def fetchData (sheetName tableId : String) (res : SheetResponse) (s : SheetPage) : SheetPage :=
  if res.status = "success" then
    let rows := (jsSlice res.data 1 res.data.length).map (fun row => row.map cellText)
    let s := { s with tbody := fun id => if id = tableId then rows else s.tbody id }
    let s :=
      if sheetName = "Patients" then
        { s with totalPatients := toString ((res.data.length : Int) - 1) }
      else s
    let s :=
      if sheetName = "Doctors" then
        { s with totalDoctors := toString ((res.data.length : Int) - 1) }
      else s
    if sheetName = "Appointments" then
      { s with totalAppointments := toString ((res.data.length : Int) - 1) }
    else s
  else s

/-! ## Specification vocabulary for the department join -/

/-- The department an appointment falls in: the department of the doctor
found for its `doctor_id`, if one is found. -/
def departmentOf (doctors : List Doctor) (a : Appointment) : Option String :=
  (findDoctor doctors a.doctor_id).map (fun doc => doc.department)

/-! ## Sorting -/

/-- The UTF-16 code units of a character: one for the basic plane, a
surrogate pair above it. -/
def utf16Units (c : Char) : List Nat :=
  if c.toNat < 0x10000 then [c.toNat]
  else [0xD800 + (c.toNat - 0x10000) / 0x400, 0xDC00 + (c.toNat - 0x10000) % 0x400]

/-- The UTF-16 code units of a string, the sequence JavaScript compares. -/
def toUTF16 (s : String) : List Nat :=
  (s.data.map utf16Units).flatten

/-- Whether one sequence of code units comes strictly before another in
dictionary order. -/
def codeUnitsLt : List Nat → List Nat → Bool
  | [], [] => false
  | [], _ :: _ => true
  | _ :: _, [] => false
  | a :: as, b :: bs => decide (a < b) || (a == b && codeUnitsLt as bs)

/-- The comparison `s < t` of two strings. -/
def jsStringLt (s t : String) : Bool :=
  codeUnitsLt (toUTF16 s) (toUTF16 t)

/-- A property name read on the records of a collection: every record
holds a number under it, every record holds a string, every record holds a
boolean, or no record has the property. -/
inductive Column (α : Type) where
  | number (f : α → JsNum)
  | string (f : α → String)
  | boolean (f : α → Bool)
  | undefined

/-- The comparison `a[column] < b[column]`: numeric on numbers (false when
either is `NaN`), by code units on strings, `false < true` on booleans, and
false on `undefined`. -/
def Column.lt {α : Type} (col : Column α) (a b : α) : Bool :=
  match col with
  | .number f =>
    match f a, f b with
    | some x, some y => decide (x < y)
    | _, _ => false
  | .string f => jsStringLt (f a) (f b)
  | .boolean f => !f a && f b
  | .undefined => false

/-- The property `p[column]` of the patient records. -/
def patientColumn (column : String) : Column Patient :=
  if column = "patient_id" then .number (fun p => some p.patient_id)
  else if column = "first_name" then .string (fun p => p.first_name)
  else if column = "last_name" then .string (fun p => p.last_name)
  else if column = "gender" then .string (fun p => p.gender)
  else if column = "age" then .number (fun p => p.age)
  else if column = "phone" then .string (fun p => p.phone)
  else if column = "address" then .string (fun p => p.address)
  else if column = "blood_group" then .string (fun p => p.blood_group)
  else if column = "status" then .string (fun p => p.status)
  else .undefined

/-- The property `d[column]` of the doctor records. -/
def doctorColumn (column : String) : Column Doctor :=
  if column = "doctor_id" then .number (fun d => some d.doctor_id)
  else if column = "name" then .string (fun d => d.name)
  else if column = "department" then .string (fun d => d.department)
  else if column = "specialist" then .string (fun d => d.specialist)
  else if column = "phone" then .string (fun d => d.phone)
  else if column = "available" then .boolean (fun d => d.available)
  else .undefined

/-- The property `d[column]` of the department records. -/
def departmentColumn (column : String) : Column Department :=
  if column = "name" then .string (fun d => d.name)
  else if column = "description" then .string (fun d => d.description)
  else if column = "icon" then .string (fun d => d.icon)
  else if column = "total_doctors" then .number (fun d => some d.total_doctors)
  else .undefined

/-- The property `a[column]` of the appointment records. -/
def appointmentColumn (column : String) : Column Appointment :=
  if column = "appt_id" then .number (fun a => some a.appt_id)
  else if column = "patient_id" then .number (fun a => a.patient_id)
  else if column = "doctor_id" then .number (fun a => a.doctor_id)
  else if column = "date" then .string (fun a => a.date)
  else if column = "time" then .string (fun a => a.time)
  else if column = "treatment" then .string (fun a => a.treatment)
  else if column = "status" then .string (fun a => a.status)
  else if column = "notes" then .string (fun a => a.notes)
  else .undefined

/-- The comparator `sortTable` hands to `sort`, `lt a b` being
`a[column] < b[column]`. -/
def sortComparator {α : Type} (lt : α → α → Bool) (isAscending : Bool) (a b : α) : Int :=
  if lt a b then (if isAscending then 1 else -1)
  else if lt b a then (if isAscending then -1 else 1)
  else 0

/-- The method `Array.prototype.sort(compareFn)` as a stable insertion
sort: an element is placed before the first element it does not compare
greater than. The method is specified to be stable, so on a consistent
comparator every implementation gives this result. -/
def arraySort {α : Type} (compareFn : α → α → Int) (xs : List α) : List α :=
  xs.insertionSort (fun a b => compareFn a b ≤ 0)

/-- The test `data._sortColumn === column && data._sortOrder === 'asc'`. -/
def isAscending (data : SortState) (column : String) : Bool :=
  data._sortColumn == some column && data._sortOrder == some "asc"

/-- The side attributes `sortTable` leaves on the array. -/
def sortedState (column : String) (isAscending : Bool) : SortState :=
  { _sortColumn := some column, _sortOrder := some (if isAscending then "desc" else "asc") }

/-- The array-valued keys of `hospitalData`, the `type` argument of
`sortTable`. -/
inductive CollectionName where
  | patients
  | doctors
  | departments
  | appointments
deriving DecidableEq, Repr

/-- The function `sortTable`. -/
def sortTable (type : CollectionName) (column : String) (s : App) : App :=
  match type with
  | .patients =>
    let asc := isAscending s.hospitalData.patientsSort column
    let s := { s with hospitalData := { s.hospitalData with
      patients := arraySort (sortComparator (patientColumn column).lt asc) s.hospitalData.patients
      patientsSort := sortedState column asc } }
    renderPatients 1 s
  | .doctors =>
    let asc := isAscending s.hospitalData.doctorsSort column
    { s with hospitalData := { s.hospitalData with
      doctors := arraySort (sortComparator (doctorColumn column).lt asc) s.hospitalData.doctors
      doctorsSort := sortedState column asc } }
  | .departments =>
    let asc := isAscending s.hospitalData.departmentsSort column
    { s with hospitalData := { s.hospitalData with
      departments :=
        arraySort (sortComparator (departmentColumn column).lt asc) s.hospitalData.departments
      departmentsSort := sortedState column asc } }
  | .appointments =>
    let asc := isAscending s.hospitalData.appointmentsSort column
    let s := { s with hospitalData := { s.hospitalData with
      appointments :=
        arraySort (sortComparator (appointmentColumn column).lt asc) s.hospitalData.appointments
      appointmentsSort := sortedState column asc } }
    renderAppointments 1 s

/-! ## Specification vocabulary for sorting -/

/-- The values of a column are all numbers or all strings: the column is a
number column in which no record holds `NaN`, or a string column. -/
def AllNumbersOrAllStrings {α : Type} (col : Column α) (xs : List α) : Prop :=
  match col with
  | .number f => ∀ x ∈ xs, f x ≠ none
  | .string _ => True
  | .boolean _ => False
  | .undefined => False

/-- The value of `a` in the column is at most the value of `b`: by the
order of the integers on numbers, by dictionary order of the UTF-16 code
units on strings. -/
def ColumnLe {α : Type} (col : Column α) (a b : α) : Prop :=
  match col with
  | .number f => ∃ x y : Int, f a = some x ∧ f b = some y ∧ x ≤ y
  | .string f => toUTF16 (f a) ≤ toUTF16 (f b)
  | .boolean _ => False
  | .undefined => False

/-- Two successive calls of `sortTable` on a column toggle the order: the
first leaves `after1`, a permutation of `before` sorted ascending by the
column, with sort state `(column, 'asc')`; the second leaves `after2`, a
permutation of `after1` sorted descending, with sort state
`(column, 'desc')`. -/
def TogglesOrder {α : Type} (col : Column α) (column : String) (before after1 after2 : List α)
    (state1 state2 : SortState) : Prop :=
  after1.Perm before ∧ after1.Pairwise (fun a b => ColumnLe col a b) ∧
  state1 = { _sortColumn := some column, _sortOrder := some "asc" } ∧
  after2.Perm after1 ∧ after2.Pairwise (fun a b => ColumnLe col b a) ∧
  state2 = { _sortColumn := some column, _sortOrder := some "desc" }

/-! ## Specification vocabulary for the read response -/

/-- What a response field does to a collection: an array replaces it, a
missing field and a falsy value leave `after` equal to `before`. -/
def FieldApplied {α : Type} (field : ResponseField α) (before after : List α) : Prop :=
  match field with
  | .array xs => after = xs
  | .absent => after = before
  | .falsy => after = before

/-! ## Specification vocabulary -/

/-- A safe integer, `Number.isSafeInteger`: an integer of magnitude below
`2 ^ 53`. -/
def IsSafeInteger (n : Int) : Prop :=
  n.natAbs < 2 ^ 53

/-- The identifier rule in the words of the specification: `n` is 1 for an
empty collection of identifiers, and one more than the greatest identifier
for a non-empty one. -/
def IsNextIdentifier (ids : List Int) (n : Int) : Prop :=
  (ids = [] → n = 1) ∧
  (ids ≠ [] → ∃ m ∈ ids, (∀ i ∈ ids, i ≤ m) ∧ n = m + 1)

/-! ## Sample data -/

/-- A patient with the given identifier, age and status. -/
def samplePatient (id : Int) (age : JsNum) (first last status : String) : Patient :=
  { patient_id := id, first_name := first, last_name := last, gender := "F", age := age
    phone := "555-0100", address := "1 Main St", blood_group := "O+", status := status }

/-- The store of the age scenario: patients of ages 10, 45 and 70, and
analytics left over from an earlier state. -/
def scenarioStore : HospitalData :=
  { patients := [samplePatient 1 (some 10) "Ann" "Lee" "New Patient",
                 samplePatient 2 (some 45) "Bob" "Ray" "Admitted",
                 samplePatient 3 (some 70) "Cy" "Day" "New Patient"]
    doctors := []
    departments := []
    appointments := []
    analytics := { patient_age_distribution := ⟨5, 5, 5⟩
                   patient_department_distribution := [("Cardiology", 9)] } }

/-- A department named Cardiology. -/
def cardiology : Department :=
  { name := "Cardiology", description := "Heart", icon := "fa-heart", total_doctors := 1 }

/-- A department named Neurology. -/
def neurology : Department :=
  { name := "Neurology", description := "Brain", icon := "fa-brain", total_doctors := 0 }

/-- An appointment with the given identifier and references. -/
def sampleAppointment (id : Int) (patient doctor : JsNum) (status : String) : Appointment :=
  { appt_id := id, patient_id := patient, doctor_id := doctor, date := "2024-05-01"
    time := "09:00", treatment := "Checkup", status := status, notes := "" }

/-- A store with two departments, one doctor in Cardiology, two
appointments with that doctor and one appointment whose doctor is unknown. -/
def sampleStore : HospitalData :=
  { patients := [samplePatient 1 (some 10) "Ann" "Lee" "New Patient",
                 samplePatient 4 (some 45) "Bob" "Ray" "Admitted"]
    doctors := [{ doctor_id := 7, name := "Dr. Kim", department := "Cardiology"
                  specialist := "Cardiologist", phone := "555-0101", available := true }]
    departments := [cardiology, neurology]
    appointments := [sampleAppointment 1 (some 1) (some 7) "Pending",
                     sampleAppointment 2 (some 4) (some 7) "Completed",
                     sampleAppointment 5 (some 9) (some 8) "Pending"]
    analytics := { patient_age_distribution := ⟨0, 0, 0⟩
                   patient_department_distribution := [] } }

/-- A page with empty search boxes, unset selectors and empty tables. -/
def blankPage : Page :=
  { patientSearch := "", patientStatusFilter := "all", appointmentSearch := ""
    appointmentStatusFilter := "all", appointmentDoctorFilter := "all"
    doctorFilterPopulated := false, googleScriptUrl := ""
    patientsTable := .rows [], patientsPagination := []
    appointmentsTable := .rows [], appointmentsPagination := []
    recentAppointmentsTable := .rows [] }

/-- The running page over the sample store, remote store configured. -/
def sampleApp : App :=
  { config := { GOOGLE_SCRIPT_URL := "https://sheets.test/exec", SPREADSHEET_ID := ""
                USE_GOOGLE_SHEETS := true }
    hospitalData := sampleStore
    currentView := "dashboard"
    currentPage := { patients := 1, appointments := 1 }
    page := blankPage
    toasts := []
    requests := [] }

/-- A filled patient form. -/
def patientForm : FormData := fun name =>
  if name = "first_name" then "Dee"
  else if name = "last_name" then "Fox"
  else if name = "gender" then "F"
  else if name = "age" then "33"
  else if name = "phone" then "555-0102"
  else if name = "address" then "2 Main St"
  else if name = "blood_group" then "A+"
  else ""

/-- A filled appointment form. -/
def appointmentForm : FormData := fun name =>
  if name = "patient_id" then "4"
  else if name = "doctor_id" then "7"
  else if name = "date" then "2024-05-02"
  else if name = "time" then "10:30"
  else if name = "treatment" then "Checkup"
  else ""

/-- An appointment form whose patient selection is empty. -/
def noPatientForm : FormData := fun name =>
  if name = "doctor_id" then "7"
  else if name = "date" then "2024-05-02"
  else if name = "time" then "10:30"
  else if name = "treatment" then "Checkup"
  else ""

/-- A store of twelve patients with the identifiers 1 to 12. -/
def twelvePatients : HospitalData :=
  { sampleStore with
    patients := (List.range 12).map
      (fun i => samplePatient ((i : Int) + 1) (some 30) "Pat" "Doe" "New Patient") }

/-- The running page over the store of twelve patients. -/
def twelveApp : App :=
  { sampleApp with hospitalData := twelvePatients }

/-- A read response that carries a patients array and a departments array,
lacks the doctors field and holds `null` in the appointments field. -/
def partialResponse : LoadData :=
  { patients := .array [samplePatient 8 (some 61) "Eve" "Orr" "Admitted"]
    doctors := .absent
    appointments := .falsy
    departments := .array [neurology] }

/-- The sample page with a search term that no patient and no appointment
matches. -/
def noMatchApp : App :=
  { sampleApp with
    page := { blankPage with patientSearch := "zzz", appointmentSearch := "zzz" } }

/-- The running page over a store with no patient and no appointment. -/
def emptyApp : App :=
  { sampleApp with
    hospitalData := { sampleStore with patients := [], appointments := [] } }

/-- The sample page with the remote store switched off and a padded URL
typed into the settings view. -/
def settingsApp : App :=
  { sampleApp with
    config := { GOOGLE_SCRIPT_URL := "", SPREADSHEET_ID := "", USE_GOOGLE_SHEETS := false }
    page := { blankPage with googleScriptUrl := "  https://sheets.test/new \n" } }

/-- The sample page with only white space typed into the settings view. -/
def blankUrlApp : App :=
  { sampleApp with page := { blankPage with googleScriptUrl := " \t " } }

/-- A page of `script.js` with empty tables and unset counters. -/
def blankSheetPage : SheetPage :=
  { tbody := fun _ => [], totalPatients := "", totalDoctors := "", totalAppointments := "" }

/-- A successful response with a header row and two data rows. -/
def twoRowResponse : SheetResponse :=
  { status := "success"
    data := [[.text "ID", .text "Name", .text "Age"],
             [.number 1, .text "Ann", .number 10],
             [.number 2, .text "Bob", .null]] }

/-- The sample page over a store in which a patient and an appointment
carry the identifier `2 ^ 53`. -/
def bigIdApp : App :=
  { sampleApp with
    hospitalData := { sampleStore with
      patients := [samplePatient 9007199254740992 (some 30) "Max" "Big" "New Patient"]
      appointments := [sampleAppointment 1 (some 1) (some 7) "Pending",
                       sampleAppointment 9007199254740992 (some 4) (some 7) "Pending"] } }

/-- A department named `__proto__`. -/
def protoDepartment : Department :=
  { name := "__proto__", description := "Prototype", icon := "fa-cube", total_doctors := 1 }

/-- A store with the departments `__proto__` and Cardiology, one doctor in
each, two appointments with the doctor of `__proto__` and one with the doctor
of Cardiology. -/
def protoStore : HospitalData :=
  { sampleStore with
    doctors := [{ doctor_id := 7, name := "Dr. Kim", department := "__proto__"
                  specialist := "Surgeon", phone := "555-0101", available := true },
                { doctor_id := 9, name := "Dr. Roe", department := "Cardiology"
                  specialist := "Cardiologist", phone := "555-0103", available := true }]
    departments := [protoDepartment, cardiology]
    appointments := [sampleAppointment 1 (some 1) (some 7) "Pending",
                     sampleAppointment 2 (some 4) (some 7) "Completed",
                     sampleAppointment 3 (some 4) (some 9) "Pending"] }

/-- A store in which two doctors carry the identifier 7, the first in
Oncology, which is no department of the store, the second in Cardiology,
which is one; its one appointment refers to doctor 7. -/
def twoDoctorsOneIdStore : HospitalData :=
  { sampleStore with
    doctors := [{ doctor_id := 7, name := "Dr. Kim", department := "Oncology"
                  specialist := "Oncologist", phone := "555-0101", available := true },
                { doctor_id := 7, name := "Dr. Roe", department := "Cardiology"
                  specialist := "Cardiologist", phone := "555-0103", available := true }]
    departments := [cardiology]
    appointments := [sampleAppointment 1 (some 1) (some 7) "Pending"] }

end Hospital

namespace Hospital

/-! ## Age distribution -/

/-- Folding `countAge` over integer-aged patients adds to each bucket the
number of patients of its age range. -/
theorem foldl_countAge (age : Patient → Int) (ps : List Patient)
    (hage : ∀ p ∈ ps, p.age = some (age p)) (d : AgeDistribution) :
    ps.foldl countAge d =
      { Child := d.Child + ps.countP (fun p => decide (age p < 18))
        Adult := d.Adult + ps.countP (fun p => decide (18 ≤ age p ∧ age p < 60))
        Elderly := d.Elderly + ps.countP (fun p => decide (60 ≤ age p)) } := by
  induction ps generalizing d with
  | nil => simp
  | cons p ps ih =>
    have hp : p.age = some (age p) := hage p (List.mem_cons_self _ _)
    have ih2 := fun d => ih (fun q hq => hage q (List.mem_cons_of_mem _ hq)) d
    rw [List.foldl_cons, ih2]
    by_cases h1 : age p < 18
    · have h2 : ¬ (18 ≤ age p ∧ age p < 60) := by omega
      have h3 : ¬ (60 ≤ age p) := by omega
      simp [countAge, jsLt, hp, h1, h2, h3, List.countP_cons]
      omega
    · by_cases h4 : age p < 60
      · have h2 : 18 ≤ age p ∧ age p < 60 := by omega
        have h3 : ¬ (60 ≤ age p) := by omega
        simp [countAge, jsLt, hp, h1, h4, h2, h3, List.countP_cons]
        omega
      · have h2 : ¬ (18 ≤ age p ∧ age p < 60) := by omega
        have h3 : 60 ≤ age p := by omega
        simp [countAge, jsLt, hp, h1, h4, h2, h3, List.countP_cons]
        omega

/-- One step of the age loop raises the total of the three buckets by one
and lowers no bucket. -/
theorem countAge_step (d : AgeDistribution) (p : Patient) :
    (countAge d p).Child + (countAge d p).Adult + (countAge d p).Elderly
        = d.Child + d.Adult + d.Elderly + 1 ∧
      d.Child ≤ (countAge d p).Child ∧ d.Adult ≤ (countAge d p).Adult ∧
      d.Elderly ≤ (countAge d p).Elderly := by
  unfold countAge
  split
  · simp; omega
  · split
    · simp; omega
    · simp; omega

/-- Folding `countAge` raises the total of the three buckets by the number
of patients. -/
theorem foldl_countAge_total (ps : List Patient) (d : AgeDistribution) :
    (ps.foldl countAge d).Child + (ps.foldl countAge d).Adult + (ps.foldl countAge d).Elderly
      = d.Child + d.Adult + d.Elderly + ps.length := by
  induction ps generalizing d with
  | nil => simp
  | cons p ps ih =>
    rw [List.foldl_cons, ih, (countAge_step d p).1, List.length_cons]
    omega

/-! ## Department distribution -/

/-- Reading a key of the empty object. -/
theorem get_nil (k : String) : JsObject.get [] k = none := rfl

/-- Reading a key of an object whose first entry is `e`. -/
theorem get_cons (e : String × Nat) (o : JsObject) (k : String) :
    JsObject.get (e :: o) k = if e.1 = k then some e.2 else JsObject.get o k := by
  unfold JsObject.get
  by_cases h : e.1 = k <;> simp [List.find?_cons, h]

/-- A key that no entry carries reads as `undefined`. -/
theorem get_of_any_false (o : JsObject) (k : String)
    (h : o.any (fun e => e.1 == k) = false) : JsObject.get o k = none := by
  induction o with
  | nil => rfl
  | cons e o ih =>
    rw [List.any_cons, Bool.or_eq_false_iff] at h
    have he : ¬ (e.1 = k) := by simpa using h.1
    rw [get_cons, if_neg he]
    exact ih h.2

/-- Reading a key of the object after every entry of key `k` was rewritten
to `(k, v)`. -/
theorem get_map_replace (o : JsObject) (k k2 : String) (v : Nat) :
    JsObject.get (o.map (fun e => if e.1 == k then (k, v) else e)) k2 =
      if k2 = k then (if o.any (fun e => e.1 == k) then some v else none)
      else JsObject.get o k2 := by
  induction o with
  | nil => simp [get_nil]
  | cons e o ih =>
    rw [List.map_cons, get_cons, ih, List.any_cons, get_cons]
    by_cases hk : k2 = k
    · subst hk
      by_cases he : e.1 = k2
      · simp [he]
      · have hb : (e.1 == k2) = false := by simpa using he
        rw [hb]
        simp only [Bool.false_or, if_true, Bool.false_eq_true, if_false, he]
    · by_cases he : e.1 = k
      · have h1 : ¬ (k = k2) := fun h => hk h.symm
        have h2 : ¬ (e.1 = k2) := by rw [he]; exact h1
        simp [he, hk, h1, h2]
      · by_cases h3 : e.1 = k2
        · simp [he, hk, h3]
        · simp [he, hk, h3]

/-- Reading a key of the object after a new entry was added at the end. -/
theorem get_append_singleton (o : JsObject) (k k2 : String) (v : Nat) :
    JsObject.get (o ++ [(k, v)]) k2 =
      match JsObject.get o k2 with
      | some x => some x
      | none => if k = k2 then some v else none := by
  induction o with
  | nil => simp [get_nil, get_cons]
  | cons e o ih =>
    rw [List.cons_append, get_cons, get_cons, ih]
    by_cases he : e.1 = k2 <;> simp [he]

/-- Reading after the own entry `k` was written. -/
theorem get_put (o : JsObject) (k k2 : String) (v : Nat) :
    JsObject.get (JsObject.put o k v) k2 = if k2 = k then some v else JsObject.get o k2 := by
  unfold JsObject.put
  by_cases h : o.any (fun e => e.1 == k) = true
  · rw [if_pos h, get_map_replace]
    by_cases hk : k2 = k <;> simp [hk, h]
  · rw [if_neg h, get_append_singleton]
    have hf : o.any (fun e => e.1 == k) = false := Bool.eq_false_iff.2 h
    by_cases hk : k2 = k
    · subst hk
      rw [get_of_any_false o k2 hf]
    · have hk2 : ¬ (k = k2) := fun e => hk e.symm
      cases hg : JsObject.get o k2 <;> simp [hk, hk2]

/-- Reading after the assignment `o[k] = v`: under the key `__proto__`
nothing has changed. -/
theorem get_set (o : JsObject) (k k2 : String) (v : Nat) :
    JsObject.get (JsObject.set o k v) k2 =
      if k = "__proto__" then JsObject.get o k2
      else if k2 = k then some v else JsObject.get o k2 := by
  unfold JsObject.set
  by_cases hk : k = "__proto__"
  · rw [if_pos hk, if_pos hk]
  · rw [if_neg hk, if_neg hk, get_put]

/-- Reading a key after one step of the department loop. -/
theorem countDepartment_get (doctors : List Doctor) (appointments : List Appointment)
    (o : JsObject) (d : Department) (k : String) :
    JsObject.get (countDepartment doctors appointments o d) k =
      if d.name = k ∧ (k ≠ "__proto__" ∧
          0 < (appointments.filter (doctorInDepartment doctors k)).length)
      then some (appointments.filter (doctorInDepartment doctors k)).length
      else JsObject.get o k := by
  unfold countDepartment
  simp only []
  by_cases hpos : 0 < (appointments.filter (doctorInDepartment doctors d.name)).length
  · have hpos2 : (appointments.filter (doctorInDepartment doctors d.name)).length > 0 := hpos
    rw [if_pos hpos2, get_set]
    by_cases hproto : d.name = "__proto__"
    · rw [if_pos hproto, if_neg]
      rintro ⟨hd, hk, _⟩
      exact hk (hd ▸ hproto)
    · rw [if_neg hproto]
      by_cases hd : d.name = k
      · subst hd
        rw [if_pos rfl, if_pos ⟨rfl, hproto, hpos⟩]
      · rw [if_neg (fun h => hd h.symm), if_neg (fun h => hd h.1)]
  · have hpos2 : ¬ (appointments.filter (doctorInDepartment doctors d.name)).length > 0 := hpos
    rw [if_neg hpos2, if_neg]
    rintro ⟨hd, _, hp⟩
    exact hpos (hd ▸ hp)

/-- The table built by the department loop from a table `o`: a department
name other than `__proto__` met by the loop with a positive count reads as
that count, any other key reads as it did in `o`. -/
theorem foldl_countDepartment_get (doctors : List Doctor) (appointments : List Appointment)
    (ds : List Department) (o : JsObject) (k : String) :
    JsObject.get (ds.foldl (countDepartment doctors appointments) o) k =
      if (∃ d ∈ ds, d.name = k) ∧ (k ≠ "__proto__" ∧
          0 < (appointments.filter (doctorInDepartment doctors k)).length)
      then some (appointments.filter (doctorInDepartment doctors k)).length
      else JsObject.get o k := by
  induction ds generalizing o with
  | nil => simp
  | cons d ds ih =>
    rw [List.foldl_cons, ih, countDepartment_get]
    by_cases hpos : k ≠ "__proto__" ∧
        0 < (appointments.filter (doctorInDepartment doctors k)).length
    · by_cases hex : ∃ d2 ∈ ds, d2.name = k
      · have hex2 : ∃ d2 ∈ d :: ds, d2.name = k := by
          obtain ⟨d2, hd2, hn⟩ := hex
          exact ⟨d2, List.mem_cons_of_mem _ hd2, hn⟩
        rw [if_pos ⟨hex, hpos⟩, if_pos ⟨hex2, hpos⟩]
      · rw [if_neg (fun h => hex h.1)]
        by_cases hd : d.name = k
        · have hex2 : ∃ d2 ∈ d :: ds, d2.name = k := ⟨d, List.mem_cons_self _ _, hd⟩
          rw [if_pos ⟨hd, hpos⟩, if_pos ⟨hex2, hpos⟩]
        · have hex2 : ¬ ∃ d2 ∈ d :: ds, d2.name = k := by
            rintro ⟨d2, hd2, hn⟩
            rcases List.mem_cons.1 hd2 with h | h
            · exact hd (h ▸ hn)
            · exact hex ⟨d2, h, hn⟩
          rw [if_neg (fun h => hd h.1), if_neg (fun h => hex2 h.1)]
    · rw [if_neg (fun h => hpos h.2), if_neg (fun h => hpos h.2), if_neg (fun h => hpos h.2)]

/-! ## The analytics aggregator -/

/-- C1. For a patient collection with integer ages, `updateAnalytics` leaves
in the age distribution the number of patients of age below 18 as `Child`,
of age from 18 to 59 as `Adult`, and of age 60 or more as `Elderly`. -/
theorem updateAnalytics_age_distribution (h : HospitalData) (age : Patient → Int)
    (hage : ∀ p ∈ h.patients, p.age = some (age p)) :
    (updateAnalytics h).analytics.patient_age_distribution =
      { Child := h.patients.countP (fun p => decide (age p < 18))
        Adult := h.patients.countP (fun p => decide (18 ≤ age p ∧ age p < 60))
        Elderly := h.patients.countP (fun p => decide (60 ≤ age p)) } := by
  have key := foldl_countAge age h.patients hage ⟨0, 0, 0⟩
  simp only [Nat.zero_add] at key
  exact key

/-- The age scenario: patients of ages 10, 45 and 70 give one child, one
adult and one elderly patient. -/
theorem updateAnalytics_age_distribution_scenario :
    scenarioStore.patients.map (fun p => p.age) = [some 10, some 45, some 70] ∧
      (updateAnalytics scenarioStore).analytics.patient_age_distribution =
        { Child := 1, Adult := 1, Elderly := 1 } :=
  ⟨by decide,
   (updateAnalytics_age_distribution scenarioStore (fun p => p.age.getD 0) (by decide)).trans
     (by decide)⟩

/-- C2. After `updateAnalytics` the three age buckets partition the
patients: every patient raises exactly one bucket by one (the total grows by
one and no bucket shrinks), and the buckets add up to the number of patients,
whatever the analytics held before. -/
theorem updateAnalytics_age_partition (h : HospitalData) :
    (∀ (d : AgeDistribution) (p : Patient),
        (countAge d p).Child + (countAge d p).Adult + (countAge d p).Elderly
            = d.Child + d.Adult + d.Elderly + 1 ∧
          d.Child ≤ (countAge d p).Child ∧ d.Adult ≤ (countAge d p).Adult ∧
          d.Elderly ≤ (countAge d p).Elderly) ∧
      (updateAnalytics h).analytics.patient_age_distribution.Child +
          (updateAnalytics h).analytics.patient_age_distribution.Adult +
          (updateAnalytics h).analytics.patient_age_distribution.Elderly
        = h.patients.length := by
  refine ⟨countAge_step, ?_⟩
  have key := foldl_countAge_total h.patients ⟨0, 0, 0⟩
  simp only [Nat.zero_add] at key
  exact key

/-- C3, as the code has it. After `updateAnalytics`, for every department
`d` of the store whose name is not `__proto__`, the department distribution
maps `d.name` to the number of appointments whose doctor, looked up by the
appointment's `doctor_id`, has department `d.name` when that number is
positive, and has no entry for `d.name` when it is zero. -/
theorem updateAnalytics_department_distribution (h : HospitalData) (d : Department)
    (hd : d ∈ h.departments) (hname : d.name ≠ "__proto__") :
    JsObject.get (updateAnalytics h).analytics.patient_department_distribution d.name =
      if 0 < h.appointments.countP (fun a =>
            match findDoctor h.doctors a.doctor_id with
            | some doc => doc.department == d.name
            | none => false)
      then some (h.appointments.countP (fun a =>
            match findDoctor h.doctors a.doctor_id with
            | some doc => doc.department == d.name
            | none => false))
      else none := by
  have hfun : (fun a : Appointment =>
      match findDoctor h.doctors a.doctor_id with
      | some doc => doc.department == d.name
      | none => false) = doctorInDepartment h.doctors d.name := by
    funext a
    rfl
  rw [hfun, List.countP_eq_length_filter]
  have key := foldl_countDepartment_get h.doctors h.appointments h.departments [] d.name
  rw [get_nil] at key
  have hex : ∃ d2 ∈ h.departments, d2.name = d.name := ⟨d, hd, rfl⟩
  by_cases hpos : 0 < (h.appointments.filter (doctorInDepartment h.doctors d.name)).length
  · rw [if_pos ⟨hex, hname, hpos⟩] at key
    rw [if_pos hpos]
    exact key
  · rw [if_neg (fun hc => hpos hc.2.2)] at key
    rw [if_neg hpos]
    exact key

/-- In the sample store Cardiology has two appointments and is mapped to 2,
Neurology has none and has no entry. -/
theorem updateAnalytics_department_distribution_sample :
    cardiology ∈ sampleStore.departments ∧ cardiology.name ≠ "__proto__" ∧
      JsObject.get (updateAnalytics sampleStore).analytics.patient_department_distribution
        cardiology.name = some 2 ∧
      JsObject.get (updateAnalytics sampleStore).analytics.patient_department_distribution
        neurology.name = none :=
  ⟨by decide, by decide,
   (updateAnalytics_department_distribution sampleStore cardiology (by decide)
      (by decide)).trans (by decide),
   (updateAnalytics_department_distribution sampleStore neurology (by decide)
      (by decide)).trans (by decide)⟩

/-- In a store with a department named `__proto__`, whose doctor has two
appointments, the number of appointments of the department is 2 and the
department distribution has no entry for it. -/
theorem updateAnalytics_proto_department_no_entry :
    protoDepartment ∈ protoStore.departments ∧
      protoStore.appointments.countP (fun a =>
        match findDoctor protoStore.doctors a.doctor_id with
        | some doc => doc.department == protoDepartment.name
        | none => false) = 2 ∧
      JsObject.get (updateAnalytics protoStore).analytics.patient_department_distribution
        protoDepartment.name = none ∧
      JsObject.get (updateAnalytics protoStore).analytics.patient_department_distribution
        protoDepartment.name ≠ some 2 := by
  refine ⟨by decide, by decide, by decide, by decide⟩

/-! ## Identifier assignment -/

/-- The running maximum is at least its starting value. -/
theorem le_mathMax (x : Int) (xs : List Int) : x ≤ mathMax x xs := by
  unfold mathMax
  induction xs generalizing x with
  | nil => exact le_refl x
  | cons y ys ih =>
    rw [List.foldl_cons]
    exact le_trans (le_max_left x y) (ih (max x y))

/-- The running maximum is at least every element it ran over. -/
theorem le_mathMax_of_mem (x : Int) (xs : List Int) (i : Int) (hi : i ∈ xs) :
    i ≤ mathMax x xs := by
  induction xs generalizing x with
  | nil => cases hi
  | cons y ys ih =>
    have hstep : mathMax x (y :: ys) = mathMax (max x y) ys := rfl
    rw [hstep]
    rcases List.mem_cons.1 hi with h | h
    · rw [h]
      exact le_trans (le_max_right x y) (le_mathMax (max x y) ys)
    · exact ih (max x y) h

/-- The running maximum is one of the numbers it ran over. -/
theorem mathMax_mem (x : Int) (xs : List Int) : mathMax x xs ∈ x :: xs := by
  induction xs generalizing x with
  | nil => exact List.mem_cons_self _ _
  | cons y ys ih =>
    have hstep : mathMax x (y :: ys) = mathMax (max x y) ys := rfl
    rw [hstep]
    rcases List.mem_cons.1 (ih (max x y)) with h | h
    · rw [h]
      rcases max_choice x y with hm | hm
      · rw [hm]; exact List.mem_cons_self _ _
      · rw [hm]; exact List.mem_cons_of_mem _ (List.mem_cons_self _ _)
    · exact List.mem_cons_of_mem _ (List.mem_cons_of_mem _ h)

/-- An integer of magnitude up to `2 ^ 53` is a double as it stands. -/
theorem roundToDouble_of_le (n : Int) (h : n.natAbs ≤ 2 ^ 53) : roundToDouble n = n := by
  unfold roundToDouble
  rw [if_pos h]

/-- Adding 1 to a safe integer is exact. -/
theorem jsAdd_one_of_safe (m : Int) (h : IsSafeInteger m) : jsAdd m 1 = m + 1 := by
  unfold jsAdd
  apply roundToDouble_of_le
  have h1 : (m + 1).natAbs ≤ m.natAbs + (1 : Int).natAbs := Int.natAbs_add_le m 1
  have h2 : (1 : Int).natAbs = 1 := rfl
  unfold IsSafeInteger at h
  omega

/-- The identifier expression on a non-empty list of safe integers is the
greatest of them plus one. -/
theorem maxPlusOne_cons_of_safe (x : Int) (xs : List Int)
    (hsafe : ∀ i ∈ x :: xs, IsSafeInteger i) : maxPlusOne (x :: xs) = mathMax x xs + 1 :=
  jsAdd_one_of_safe _ (hsafe _ (mathMax_mem x xs))

/-- The identifier expression follows the identifier rule on safe
integers. -/
theorem maxPlusOne_isNextIdentifier (ids : List Int) (hsafe : ∀ i ∈ ids, IsSafeInteger i) :
    IsNextIdentifier ids (maxPlusOne ids) := by
  cases ids with
  | nil => exact ⟨fun _ => rfl, fun h => absurd rfl h⟩
  | cons x xs =>
    refine ⟨fun h => (by cases h), fun _ => ⟨mathMax x xs, mathMax_mem x xs, ?_,
      maxPlusOne_cons_of_safe x xs hsafe⟩⟩
    intro i hi
    rcases List.mem_cons.1 hi with h | h
    · rw [h]; exact le_mathMax x xs
    · exact le_mathMax_of_mem x xs i h

/-- The identifier expression exceeds every identifier it was computed
from, when these are safe integers. -/
theorem lt_maxPlusOne (ids : List Int) (hsafe : ∀ i ∈ ids, IsSafeInteger i) (i : Int)
    (hi : i ∈ ids) : i < maxPlusOne ids := by
  cases ids with
  | nil => cases hi
  | cons x xs =>
    have hle : i ≤ mathMax x xs := by
      rcases List.mem_cons.1 hi with h | h
      · rw [h]; exact le_mathMax x xs
      · exact le_mathMax_of_mem x xs i h
    rw [maxPlusOne_cons_of_safe x xs hsafe]
    omega

/-! ## Frame properties of the renderers and of the remote client -/

/-- The function `renderPagination` writes only the page. -/
theorem renderPagination_frame (type : ListKind) (n : Nat) (s : App) :
    (renderPagination type n s).hospitalData = s.hospitalData ∧
      (renderPagination type n s).config = s.config ∧
      (renderPagination type n s).toasts = s.toasts ∧
      (renderPagination type n s).requests = s.requests := by
  cases type <;> exact ⟨rfl, rfl, rfl, rfl⟩

/-- The function `renderPatients` writes only the page and `currentPage`. -/
theorem renderPatients_frame (page : Int) (s : App) :
    (renderPatients page s).hospitalData = s.hospitalData ∧
      (renderPatients page s).config = s.config ∧
      (renderPatients page s).toasts = s.toasts ∧
      (renderPatients page s).requests = s.requests := by
  unfold renderPatients
  simp only []
  split
  · exact ⟨rfl, rfl, rfl, rfl⟩
  · exact renderPagination_frame _ _ _

/-- The function `renderAppointments` writes only the page and
`currentPage`. -/
theorem renderAppointments_frame (page : Int) (s : App) :
    (renderAppointments page s).hospitalData = s.hospitalData ∧
      (renderAppointments page s).config = s.config ∧
      (renderAppointments page s).toasts = s.toasts ∧
      (renderAppointments page s).requests = s.requests := by
  unfold renderAppointments
  simp only []
  split
  · exact ⟨rfl, rfl, rfl, rfl⟩
  · exact renderPagination_frame _ _ _

/-- The function `saveToSheets` leaves the store and the configuration as
they are. -/
theorem saveToSheets_frame (sheet action : String) (data : SheetRecord) (w : WriteOutcome)
    (s : App) :
    (saveToSheets sheet action data w s).2.hospitalData = s.hospitalData ∧
      (saveToSheets sheet action data w s).2.config = s.config ∧
      (saveToSheets sheet action data w s).2.page = s.page ∧
      (saveToSheets sheet action data w s).2.currentPage = s.currentPage := by
  unfold saveToSheets
  split
  · exact ⟨rfl, rfl, rfl, rfl⟩
  · cases w <;> exact ⟨rfl, rfl, rfl, rfl⟩

/-- The store that `handleAddPatient` leaves: the new patient appended, the
analytics recomputed. -/
theorem handleAddPatient_hospitalData (formData : FormData) (w : WriteOutcome) (s : App) :
    (handleAddPatient formData w s).hospitalData =
      updateAnalytics { s.hospitalData with
        patients := s.hospitalData.patients ++ [newPatient formData s.hospitalData] } := by
  unfold handleAddPatient
  simp only []
  show (renderPatients 1 _).hospitalData = _
  rw [(renderPatients_frame _ _).1]
  split
  · simp only [(saveToSheets_frame _ _ _ _ _).1]
  · rfl

/-- The store that `handleAddAppointment` leaves when both selections are
present: the new appointment appended, the analytics recomputed. -/
theorem handleAddAppointment_hospitalData (formData : FormData) (w : WriteOutcome) (s : App)
    (hp : formData "patient_id" ≠ "") (hd : formData "doctor_id" ≠ "") :
    (handleAddAppointment formData w s).hospitalData =
      updateAnalytics { s.hospitalData with
        appointments :=
          s.hospitalData.appointments ++ [newAppointment formData s.hospitalData] } := by
  unfold handleAddAppointment
  rw [if_neg (by simp [hp, hd])]
  simp only []
  show (renderAppointments 1 _).hospitalData = _
  rw [(renderAppointments_frame _ _).1]
  split
  · simp only [(saveToSheets_frame _ _ _ _ _).1]
  · rfl

/-! ## The add handlers -/

/-- C4, as the code has it. The identifier `handleAddPatient` gives the
patient it appends, and the one `handleAddAppointment` gives the appointment
it appends when both selections are present, is 1 for an empty collection and
the greatest existing identifier plus one for a non-empty collection whose
identifiers are safe integers (of magnitude below `2 ^ 53`). -/
theorem add_handlers_assign_next_identifier (formData : FormData) (w : WriteOutcome) (s : App) :
    ((∀ q ∈ s.hospitalData.patients, IsSafeInteger q.patient_id) →
        ∃ p : Patient,
          (handleAddPatient formData w s).hospitalData.patients =
            s.hospitalData.patients ++ [p] ∧
          IsNextIdentifier (s.hospitalData.patients.map (fun q => q.patient_id))
            p.patient_id) ∧
      (formData "patient_id" ≠ "" → formData "doctor_id" ≠ "" →
        (∀ b ∈ s.hospitalData.appointments, IsSafeInteger b.appt_id) →
        ∃ a : Appointment,
          (handleAddAppointment formData w s).hospitalData.appointments =
            s.hospitalData.appointments ++ [a] ∧
          IsNextIdentifier (s.hospitalData.appointments.map (fun b => b.appt_id)) a.appt_id) := by
  constructor
  · intro hsafe
    have hids : ∀ i ∈ s.hospitalData.patients.map (fun q => q.patient_id), IsSafeInteger i := by
      intro i hi
      obtain ⟨q, hq, rfl⟩ := List.mem_map.1 hi
      exact hsafe q hq
    refine ⟨newPatient formData s.hospitalData, ?_, maxPlusOne_isNextIdentifier _ hids⟩
    rw [handleAddPatient_hospitalData]
    rfl
  · intro hp hd hsafe
    have hids : ∀ i ∈ s.hospitalData.appointments.map (fun b => b.appt_id),
        IsSafeInteger i := by
      intro i hi
      obtain ⟨b, hb, rfl⟩ := List.mem_map.1 hi
      exact hsafe b hb
    refine ⟨newAppointment formData s.hospitalData, ?_, maxPlusOne_isNextIdentifier _ hids⟩
    rw [handleAddAppointment_hospitalData formData w s hp hd]
    rfl

/-- On the sample page, whose appointments carry the identifiers 1, 2 and
5, the appointment added gets identifier 6. -/
theorem add_handlers_assign_next_identifier_sample :
    appointmentForm "patient_id" ≠ "" ∧ appointmentForm "doctor_id" ≠ "" ∧
      sampleApp.hospitalData.appointments.map (fun b => b.appt_id) = [1, 2, 5] ∧
      ∃ a : Appointment,
        (handleAddAppointment appointmentForm (.ok true) sampleApp).hospitalData.appointments =
          sampleApp.hospitalData.appointments ++ [a] ∧ a.appt_id = 6 := by
  refine ⟨by decide, by decide, by decide, ?_⟩
  obtain ⟨a, happ, hnext⟩ :=
    (add_handlers_assign_next_identifier appointmentForm (.ok true) sampleApp).2
      (by decide) (by decide) (by unfold IsSafeInteger; decide)
  refine ⟨a, happ, ?_⟩
  have hids : sampleApp.hospitalData.appointments.map (fun b => b.appt_id) = [1, 2, 5] := by
    decide
  rw [hids] at hnext
  obtain ⟨m, hm, hmax, hn⟩ := hnext.2 (by decide)
  have h5 : (5 : Int) ≤ m := hmax 5 (by decide)
  have hm5 : m ≤ 5 := by
    simp only [List.mem_cons, List.mem_singleton, List.not_mem_nil, or_false] at hm
    omega
  omega

/-- With a patient of identifier `2 ^ 53` in the store, the patient added
gets the identifier `2 ^ 53` again: the sum `2 ^ 53 + 1` is not a double and
rounds back, so the new identifier is not the greatest identifier plus
one. -/
theorem add_handler_identifier_not_max_plus_one :
    bigIdApp.hospitalData.patients.map (fun q => q.patient_id) = [9007199254740992] ∧
      (handleAddPatient patientForm .rejected bigIdApp).hospitalData.patients.map
        (fun q => q.patient_id) = [9007199254740992, 9007199254740992] ∧
      ¬ IsNextIdentifier [9007199254740992] 9007199254740992 := by
  refine ⟨by decide, by decide, ?_⟩
  intro h
  obtain ⟨m, hm, _, hn⟩ := h.2 (by decide)
  rw [List.mem_singleton] at hm
  omega

/-- C5, as the code has it. The add handlers preserve identifier uniqueness
on safe integers: when the identifiers of the collection are safe integers
(of magnitude below `2 ^ 53`), the identifier of the appended record differs
from every identifier already in the collection, so a collection with
pairwise distinct identifiers has pairwise distinct identifiers again after
`handleAddPatient`, and likewise for `appt_id` after `handleAddAppointment`
with both selections present. -/
theorem add_handlers_preserve_unique_identifiers (formData : FormData) (w : WriteOutcome)
    (s : App) :
    ((∀ q ∈ s.hospitalData.patients, IsSafeInteger q.patient_id) →
        ∃ p : Patient,
          (handleAddPatient formData w s).hospitalData.patients =
            s.hospitalData.patients ++ [p] ∧
          (∀ q ∈ s.hospitalData.patients, q.patient_id ≠ p.patient_id) ∧
          ((s.hospitalData.patients.map (fun q => q.patient_id)).Nodup →
            ((handleAddPatient formData w s).hospitalData.patients.map
              (fun q => q.patient_id)).Nodup)) ∧
      (formData "patient_id" ≠ "" → formData "doctor_id" ≠ "" →
        (∀ b ∈ s.hospitalData.appointments, IsSafeInteger b.appt_id) →
        ∃ a : Appointment,
          (handleAddAppointment formData w s).hospitalData.appointments =
            s.hospitalData.appointments ++ [a] ∧
          (∀ b ∈ s.hospitalData.appointments, b.appt_id ≠ a.appt_id) ∧
          ((s.hospitalData.appointments.map (fun b => b.appt_id)).Nodup →
            ((handleAddAppointment formData w s).hospitalData.appointments.map
              (fun b => b.appt_id)).Nodup)) := by
  constructor
  · intro hsafe
    have hids : ∀ i ∈ s.hospitalData.patients.map (fun q => q.patient_id), IsSafeInteger i := by
      intro i hi
      obtain ⟨q, hq, rfl⟩ := List.mem_map.1 hi
      exact hsafe q hq
    have hnew : ∀ q ∈ s.hospitalData.patients,
        q.patient_id ≠ (newPatient formData s.hospitalData).patient_id := by
      intro q hq
      have hlt := lt_maxPlusOne (s.hospitalData.patients.map (fun q => q.patient_id)) hids
        q.patient_id (List.mem_map_of_mem _ hq)
      exact ne_of_lt hlt
    have happ : (handleAddPatient formData w s).hospitalData.patients =
        s.hospitalData.patients ++ [newPatient formData s.hospitalData] := by
      rw [handleAddPatient_hospitalData]
      rfl
    refine ⟨newPatient formData s.hospitalData, happ, hnew, ?_⟩
    intro hnodup
    rw [happ, List.map_append, List.map_singleton]
    refine List.Nodup.append hnodup (List.nodup_singleton _) ?_
    intro i hi hi2
    obtain ⟨q, hq, hqi⟩ := List.mem_map.1 hi
    rw [List.mem_singleton] at hi2
    exact hnew q hq (hqi.trans hi2)
  · intro hp hd hsafe
    have hids : ∀ i ∈ s.hospitalData.appointments.map (fun b => b.appt_id),
        IsSafeInteger i := by
      intro i hi
      obtain ⟨b, hb, rfl⟩ := List.mem_map.1 hi
      exact hsafe b hb
    have hnew : ∀ b ∈ s.hospitalData.appointments,
        b.appt_id ≠ (newAppointment formData s.hospitalData).appt_id := by
      intro b hb
      have hlt := lt_maxPlusOne (s.hospitalData.appointments.map (fun b => b.appt_id)) hids
        b.appt_id (List.mem_map_of_mem _ hb)
      exact ne_of_lt hlt
    have happ : (handleAddAppointment formData w s).hospitalData.appointments =
        s.hospitalData.appointments ++ [newAppointment formData s.hospitalData] := by
      rw [handleAddAppointment_hospitalData formData w s hp hd]
      rfl
    refine ⟨newAppointment formData s.hospitalData, happ, hnew, ?_⟩
    intro hnodup
    rw [happ, List.map_append, List.map_singleton]
    refine List.Nodup.append hnodup (List.nodup_singleton _) ?_
    intro i hi hi2
    obtain ⟨b, hb, hbi⟩ := List.mem_map.1 hi
    rw [List.mem_singleton] at hi2
    exact hnew b hb (hbi.trans hi2)

/-- On the sample page, whose patients carry the distinct identifiers 1 and
4, the patients after an add carry the distinct identifiers 1, 4 and 5. -/
theorem add_handlers_preserve_unique_identifiers_sample :
    (sampleApp.hospitalData.patients.map (fun q => q.patient_id)).Nodup ∧
      ((handleAddPatient patientForm .rejected sampleApp).hospitalData.patients.map
        (fun q => q.patient_id)).Nodup ∧
      (handleAddPatient patientForm .rejected sampleApp).hospitalData.patients.map
        (fun q => q.patient_id) = [1, 4, 5] := by
  obtain ⟨_, _, _, hkeep⟩ :=
    (add_handlers_preserve_unique_identifiers patientForm .rejected sampleApp).1
      (by unfold IsSafeInteger; decide)
  exact ⟨by decide, hkeep (by decide), by decide⟩

/-- With appointments of the distinct identifiers 1 and `2 ^ 53` in the
store, the appointment added gets the identifier `2 ^ 53` a second time:
the identifiers are no longer pairwise distinct. -/
theorem add_handler_repeats_identifier :
    appointmentForm "patient_id" ≠ "" ∧ appointmentForm "doctor_id" ≠ "" ∧
      (bigIdApp.hospitalData.appointments.map (fun b => b.appt_id)).Nodup ∧
      (handleAddAppointment appointmentForm .rejected bigIdApp).hospitalData.appointments.map
        (fun b => b.appt_id) = [1, 9007199254740992, 9007199254740992] ∧
      ¬ ((handleAddAppointment appointmentForm .rejected
        bigIdApp).hospitalData.appointments.map (fun b => b.appt_id)).Nodup := by
  have hids : (handleAddAppointment appointmentForm .rejected
      bigIdApp).hospitalData.appointments.map (fun b => b.appt_id)
        = [1, 9007199254740992, 9007199254740992] := by decide
  refine ⟨by decide, by decide, by decide, hids, ?_⟩
  rw [hids]
  decide

/-! ## Pagination -/

/-- For a page number `k` from 1 on, the slice of the renderers holds the
elements from index `(k - 1) * 10` up to, not including, index
`min (k * 10) N`. -/
theorem paginate_eq_drop_take {α : Type} (k : Nat) (hk : 1 ≤ k) (xs : List α) :
    paginate (k : Int) xs =
      (xs.drop ((k - 1) * 10)).take (min (k * 10) xs.length - (k - 1) * 10) := by
  obtain ⟨j, rfl⟩ : ∃ j, k = j + 1 := ⟨k - 1, by omega⟩
  unfold paginate jsSlice itemsPerPage
  simp only [Nat.add_sub_cancel]
  have h1 : ¬ (((j + 1 : Nat) : Int) - 1) * ((10 : Nat) : Int) < 0 := by push_cast; omega
  have h2 : ¬ (((j + 1 : Nat) : Int) - 1) * ((10 : Nat) : Int) + ((10 : Nat) : Int) < 0 := by
    push_cast; omega
  rw [if_neg h1, if_neg h2]
  by_cases hle : j * 10 ≤ xs.length
  · have e1 : (min ((((j + 1 : Nat) : Int) - 1) * ((10 : Nat) : Int)) (xs.length : Int)).toNat
        = j * 10 := by
      push_cast; omega
    have e2 : (min ((((j + 1 : Nat) : Int) - 1) * ((10 : Nat) : Int) + ((10 : Nat) : Int))
          (xs.length : Int)
        - min ((((j + 1 : Nat) : Int) - 1) * ((10 : Nat) : Int)) (xs.length : Int)).toNat
        = min ((j + 1) * 10) xs.length - j * 10 := by
      push_cast; omega
    rw [e1, e2]
  · have e1 : (min ((((j + 1 : Nat) : Int) - 1) * ((10 : Nat) : Int)) (xs.length : Int)).toNat
        = xs.length := by
      push_cast; omega
    have e3 : min ((j + 1) * 10) xs.length - j * 10 = 0 := by omega
    rw [e1, e3, List.take_zero, List.drop_length, List.take_nil]

/-- Filtering an empty patients collection keeps nothing. -/
theorem filterPatients_nil (sv fv : String) : filterPatients sv fv [] = [] := by
  unfold filterPatients
  simp

/-- C6. For a page number `k` from 1 on, the rows that `renderPatients(k)`
and `renderAppointments(k)` show are the rows of the elements of the filtered
collection from index `(k - 1) * 10` up to, not including, index
`min (k * 10) N`, in the same order, `N` being the size of the filtered
collection. -/
theorem render_rows_are_page_slice (k : Nat) (hk : 1 ≤ k) (s : App) :
    (renderPatients (k : Int) s).page.patientsTable.dataRows =
        (((filterPatients s.page.patientSearch s.page.patientStatusFilter
              s.hospitalData.patients).drop ((k - 1) * 10)).take
            (min (k * 10) (filterPatients s.page.patientSearch s.page.patientStatusFilter
              s.hospitalData.patients).length - (k - 1) * 10)).map patientRow ∧
      (renderAppointments (k : Int) s).page.appointmentsTable.dataRows =
        (((filterAppointments s.hospitalData s.page.appointmentSearch
              s.page.appointmentStatusFilter s.page.appointmentDoctorFilter).drop
              ((k - 1) * 10)).take
            (min (k * 10) (filterAppointments s.hospitalData s.page.appointmentSearch
              s.page.appointmentStatusFilter s.page.appointmentDoctorFilter).length
              - (k - 1) * 10)).map (appointmentRow s.hospitalData) := by
  constructor
  · unfold renderPatients
    simp only []
    split
    · next h0 =>
      have hnil : s.hospitalData.patients = [] := List.length_eq_zero.1 h0
      rw [hnil, filterPatients_nil]
      simp [TableBody.dataRows]
    · rw [← paginate_eq_drop_take k hk]
      rfl
  · unfold renderAppointments
    simp only []
    split
    · next h0 =>
      have hnil : s.hospitalData.appointments = [] := List.length_eq_zero.1 h0
      have hf : filterAppointments s.hospitalData s.page.appointmentSearch
          s.page.appointmentStatusFilter s.page.appointmentDoctorFilter = [] := by
        unfold filterAppointments
        rw [hnil]
        simp
      rw [hf]
      simp [TableBody.dataRows]
    · rw [← paginate_eq_drop_take k hk]
      rfl

/-- With twelve patients and no filter, page 2 shows the patients 11 and
12. -/
theorem render_rows_are_page_slice_sample :
    1 ≤ 2 ∧
      (renderPatients 2 twelveApp).page.patientsTable.dataRows.map (fun r => r.patient_id)
        = [11, 12] :=
  ⟨by decide, by
    have h := (render_rows_are_page_slice 2 (by decide) twelveApp).1
    rw [show ((2 : Nat) : Int) = 2 from rfl] at h
    rw [h]
    decide⟩

/-- The page count `Math.ceil(N / 10)` is the ceiling of the quotient. -/
theorem mathCeilDiv_ten (n : Nat) : mathCeilDiv n itemsPerPage = ⌈(n : ℚ) / 10⌉₊ := by
  unfold mathCeilDiv itemsPerPage
  apply le_antisymm
  · have h1 : (n : ℚ) / 10 ≤ (⌈(n : ℚ) / 10⌉₊ : ℚ) := Nat.le_ceil _
    have h2 : (n : ℚ) ≤ ((10 * ⌈(n : ℚ) / 10⌉₊ : Nat) : ℚ) := by
      push_cast
      linarith
    have h3 : n ≤ 10 * ⌈(n : ℚ) / 10⌉₊ := by exact_mod_cast h2
    omega
  · rw [Nat.ceil_le]
    have h3 : n ≤ 10 * ((n + (10 - 1)) / 10) := by omega
    have h2 : (n : ℚ) ≤ ((10 * ((n + (10 - 1)) / 10) : Nat) : ℚ) := by exact_mod_cast h3
    push_cast at h2
    have h4 : ((10 : Nat) - 1 : Nat) = 9 := rfl
    push_cast
    linarith

/-- What `renderPagination` leaves in the container of its list. -/
theorem paginationOf_renderPagination (type : ListKind) (n : Nat) (s : App) :
    paginationOf type (renderPagination type n s) = paginationButtons type n s := by
  cases type <;> rfl

/-- C7, as the code has it. For a filtered collection of more than 10
records `renderPagination` leaves exactly `ceil(N / 10)` page buttons,
numbered 1 to `ceil(N / 10)`, each re-rendering its own list; for at most 10
records (at most one page) it leaves no button. -/
theorem renderPagination_buttons (type : ListKind) (n : Nat) (s : App) :
    (paginationOf type (renderPagination type n s)).map (fun b => b.number) =
        (if n ≤ 10 then [] else List.range' 1 ⌈(n : ℚ) / 10⌉₊) ∧
      ∀ b ∈ paginationOf type (renderPagination type n s), b.renders = type := by
  rw [paginationOf_renderPagination]
  unfold paginationButtons
  simp only []
  have hceil := mathCeilDiv_ten n
  by_cases hn : n ≤ 10
  · have hle : mathCeilDiv n itemsPerPage ≤ 1 := by
      unfold mathCeilDiv itemsPerPage; omega
    rw [if_pos hle, if_pos hn]
    simp
  · have hle : ¬ mathCeilDiv n itemsPerPage ≤ 1 := by
      unfold mathCeilDiv itemsPerPage; omega
    rw [if_neg hle, if_neg hn, ← hceil]
    constructor
    · rw [List.map_map]
      exact List.map_id _
    · intro b hb
      obtain ⟨i, _, rfl⟩ := List.mem_map.1 hb
      rfl

/-- Five filtered records make one page, `ceil(5 / 10) = 1`, and the
pagination control built for them has no button. -/
theorem renderPagination_single_page_no_button :
    ⌈((5 : Nat) : ℚ) / 10⌉₊ = 1 ∧
      (paginationOf .patients (renderPagination .patients 5 sampleApp)).length = 0 ∧
      (paginationOf .patients (renderPagination .patients 5 sampleApp)).map (fun b => b.number)
        ≠ List.range' 1 ⌈((5 : Nat) : ℚ) / 10⌉₊ := by
  have hceil : ⌈((5 : Nat) : ℚ) / 10⌉₊ = 1 := by
    rw [← mathCeilDiv_ten 5]
    decide
  refine ⟨hceil, by decide, ?_⟩
  rw [hceil]
  decide

/-! ## Filter composition -/

/-- Keeping the elements that pass two tests is keeping, among those that
pass the first, the ones found among those that pass the second. -/
theorem filter_and_eq_filter_mem {α : Type} [DecidableEq α] (l : List α) (a b : α → Bool) :
    l.filter (fun x => a x && b x) =
      (l.filter a).filter (fun x => decide (x ∈ l.filter b)) := by
  rw [List.filter_filter]
  apply List.filter_congr
  intro x hx
  simp [List.mem_filter, hx, Bool.and_comm]

/-- The same for three tests. -/
theorem filter_and_and_eq_filter_mem {α : Type} [DecidableEq α] (l : List α)
    (a b c : α → Bool) :
    l.filter (fun x => a x && b x && c x) =
      (l.filter a).filter (fun x => decide (x ∈ l.filter b) && decide (x ∈ l.filter c)) := by
  rw [List.filter_filter]
  apply List.filter_congr
  intro x hx
  simp [List.mem_filter, hx]
  cases a x <;> cases b x <;> cases c x <;> simp

/-- The records `renderPatients` keeps, as one filter over the collection:
a record passes when the search term is empty or matches it, and the status
filter is `all` or equals its status. -/
theorem filterPatients_eq_filter (sv fv : String) (ps : List Patient) :
    filterPatients sv fv ps =
      ps.filter (fun p =>
        (decide (toLowerCase sv = "") || patientMatches (toLowerCase sv) p) &&
        (decide ((if fv ≠ "" then fv else "all") = "all") ||
          p.status == (if fv ≠ "" then fv else "all"))) := by
  unfold filterPatients
  simp only []
  generalize (if fv ≠ "" then fv else "all") = sf
  generalize toLowerCase sv = st
  by_cases h1 : st = "" <;> by_cases h2 : sf = "all"
  · simp [h1, h2]
  · rw [if_neg (not_not.2 h1), if_pos h2]
    simp [h1, h2]
  · rw [if_pos h1, if_neg (not_not.2 h2)]
    simp [h1, h2]
  · rw [if_pos h1, if_pos h2, List.filter_filter]
    simp [h1, h2, Bool.and_comm]

/-- The records `renderAppointments` keeps, as one filter over the
collection. -/
theorem filterAppointments_eq_filter (h : HospitalData) (sv fv dv : String) :
    filterAppointments h sv fv dv =
      h.appointments.filter (fun a =>
        (decide (toLowerCase sv = "") || appointmentMatches h (toLowerCase sv) a) &&
        (decide ((if fv ≠ "" then fv else "all") = "all") ||
          a.status == (if fv ≠ "" then fv else "all")) &&
        (decide ((if dv ≠ "" then dv else "all") = "all") ||
          jsNumToString a.doctor_id == (if dv ≠ "" then dv else "all"))) := by
  unfold filterAppointments
  simp only []
  generalize (if fv ≠ "" then fv else "all") = sf
  generalize (if dv ≠ "" then dv else "all") = df
  generalize toLowerCase sv = st
  by_cases h1 : st = "" <;> by_cases h2 : sf = "all" <;> by_cases h3 : df = "all" <;>
    simp only [h1, h2, h3, ne_eq, not_true_eq_false, not_false_eq_true, if_true, if_false,
      List.filter_filter, decide_True, decide_False, Bool.true_or, Bool.false_or,
      Bool.true_and, Bool.and_true, List.filter_true] <;>
    first
      | rfl
      | (apply List.filter_congr
         intro a _
         cases appointmentMatches h st a <;> cases (a.status == sf) <;>
           cases (jsNumToString a.doctor_id == df) <;> rfl)

/-- C8. The records `renderPatients` keeps under a search term and a status
filter together are, in collection order, the records kept under the search
term alone that are also kept under the status filter alone; in
`renderAppointments` the records kept under search term, status filter and
doctor filter together are the records kept under the search term alone that
are also kept under the status filter alone and under the doctor filter
alone. A filter is left out by an empty search box or the selector value
`all`. -/
theorem filters_compose_as_intersection (h : HospitalData) (sv fv dv : String) :
    filterPatients sv fv h.patients =
        (filterPatients sv "all" h.patients).filter
          (fun p => decide (p ∈ filterPatients "" fv h.patients)) ∧
      filterAppointments h sv fv dv =
        (filterAppointments h sv "all" "all").filter
          (fun a => decide (a ∈ filterAppointments h "" fv "all") &&
            decide (a ∈ filterAppointments h "" "all" dv)) := by
  have hlow : toLowerCase "" = "" := rfl
  constructor
  · rw [filterPatients_eq_filter sv fv, filterPatients_eq_filter sv "all",
      filterPatients_eq_filter "" fv, filter_and_eq_filter_mem]
    simp [hlow]
  · rw [filterAppointments_eq_filter h sv fv dv, filterAppointments_eq_filter h sv "all" "all",
      filterAppointments_eq_filter h "" fv "all", filterAppointments_eq_filter h "" "all" dv,
      filter_and_and_eq_filter_mem]
    simp [hlow]

/-! ## Rejected submissions and failed reads -/

/-- C9. When the patient or the doctor selection of the appointment form is
empty, `handleAddAppointment` only reports a warning: the store, the request
log (no save request is sent) and everything else are as before, and the
notification shown is the warning. -/
theorem handleAddAppointment_empty_selection (formData : FormData) (w : WriteOutcome) (s : App)
    (hempty : formData "patient_id" = "" ∨ formData "doctor_id" = "") :
    (handleAddAppointment formData w s).hospitalData = s.hospitalData ∧
      (handleAddAppointment formData w s).requests = s.requests ∧
      (handleAddAppointment formData w s).toasts =
        s.toasts ++ [{ message := "Please select both patient and doctor", type := "warning" }] ∧
      handleAddAppointment formData w s =
        { s with toasts :=
            s.toasts ++ [{ message := "Please select both patient and doctor"
                           type := "warning" }] } := by
  unfold handleAddAppointment
  rw [if_pos hempty]
  exact ⟨rfl, rfl, rfl, rfl⟩

/-- On the sample page a form without a patient selection leaves the three
appointments and the empty request log as they are and shows the warning. -/
theorem handleAddAppointment_empty_selection_sample :
    noPatientForm "patient_id" = "" ∧
      (handleAddAppointment noPatientForm (.ok true) sampleApp).hospitalData.appointments =
        sampleApp.hospitalData.appointments ∧
      (handleAddAppointment noPatientForm (.ok true) sampleApp).requests = [] ∧
      (handleAddAppointment noPatientForm (.ok true) sampleApp).toasts =
        [{ message := "Please select both patient and doctor", type := "warning" }] := by
  have h := handleAddAppointment_empty_selection noPatientForm (.ok true) sampleApp
    (Or.inl (by decide))
  exact ⟨by decide, by rw [h.1], h.2.1, h.2.2.1⟩

/-- C10. When the read request of `loadDataFromSheets` fails (the fetch
rejects, the status is not ok, or the body does not parse), the store, and
with it the patients, doctors, appointments and departments collections, is
after the call what it was before; the request having been sent (remote
store configured), the notification shown last is the error report. -/
theorem loadDataFromSheets_failure (r : ReadOutcome) (s : App)
    (hfail : r = .rejected ∨ r = .notOk ∨ r = .badJson) :
    (loadDataFromSheets r s).hospitalData = s.hospitalData ∧
      (loadDataFromSheets r s).hospitalData.patients = s.hospitalData.patients ∧
      (loadDataFromSheets r s).hospitalData.doctors = s.hospitalData.doctors ∧
      (loadDataFromSheets r s).hospitalData.appointments = s.hospitalData.appointments ∧
      (loadDataFromSheets r s).hospitalData.departments = s.hospitalData.departments ∧
      (sheetsConfigured s.config = true →
        (loadDataFromSheets r s).requests =
          s.requests ++ [.get (s.config.GOOGLE_SCRIPT_URL ++ "?action=load")] ∧
        (loadDataFromSheets r s).toasts.getLast? =
          some { message := "Failed to sync data from Google Sheets", type := "error" }) := by
  have hstore : (loadDataFromSheets r s).hospitalData = s.hospitalData := by
    unfold loadDataFromSheets
    split
    · rfl
    · rcases hfail with h | h | h <;> subst h <;> rfl
  refine ⟨hstore, by rw [hstore], by rw [hstore], by rw [hstore], by rw [hstore], ?_⟩
  intro hconf
  unfold loadDataFromSheets
  rw [if_neg (by simp [hconf])]
  rcases hfail with h | h | h <;> subst h <;>
    exact ⟨rfl, by simp [showToast]⟩

/-- On the sample page a read answered with a status that is not ok leaves
the store as it is and ends on the error report. -/
theorem loadDataFromSheets_failure_sample :
    sheetsConfigured sampleApp.config = true ∧
      (loadDataFromSheets .notOk sampleApp).hospitalData = sampleStore ∧
      (loadDataFromSheets .notOk sampleApp).toasts.getLast? =
        some { message := "Failed to sync data from Google Sheets", type := "error" } := by
  have h := loadDataFromSheets_failure .notOk sampleApp (Or.inr (Or.inl rfl))
  exact ⟨by decide, h.1, (h.2.2.2.2.2 (by decide)).2⟩

/-! ## Successful reads and adds -/

/-- Recomputing the analytics twice is recomputing them once. -/
theorem updateAnalytics_idem (h : HospitalData) :
    updateAnalytics (updateAnalytics h) = updateAnalytics h := rfl

/-- The function `loadRecentAppointments` leaves the store as it is. -/
theorem loadRecentAppointments_hospitalData (s : App) :
    (loadRecentAppointments s).hospitalData = s.hospitalData := by
  unfold loadRecentAppointments
  split <;> rfl

/-- The function `showView` leaves the store as it is or recomputes its
analytics. -/
theorem showView_hospitalData (viewName : String) (s : App) :
    (showView viewName s).hospitalData = s.hospitalData ∨
      (showView viewName s).hospitalData = updateAnalytics s.hospitalData := by
  unfold showView
  simp only []
  split
  · right
    unfold loadDashboard
    rw [loadRecentAppointments_hospitalData]
  · split
    · left
      unfold loadPatients
      rw [(renderPatients_frame _ _).1]
    · split
      · left
        unfold loadAppointments
        rw [(renderAppointments_frame _ _).1]
        split <;> rfl
      · left
        rfl

/-- The store after a read that was sent and answered with `data`: the
response applied, the analytics recomputed. -/
theorem loadDataFromSheets_ok_hospitalData (data : LoadData) (s : App)
    (hconf : sheetsConfigured s.config = true) :
    (loadDataFromSheets (.ok data) s).hospitalData =
      updateAnalytics (applyLoadData data s.hospitalData) := by
  unfold loadDataFromSheets
  rw [if_neg (by simp [hconf])]
  simp only []
  show (showView _ _).hospitalData = _
  rcases showView_hospitalData _ _ with h | h <;> rw [h] <;> rfl

/-- What `applyLoadData` leaves in the four collections. -/
theorem applyLoadData_collections (data : LoadData) (h : HospitalData) :
    FieldApplied data.patients h.patients (applyLoadData data h).patients ∧
      FieldApplied data.doctors h.doctors (applyLoadData data h).doctors ∧
      FieldApplied data.appointments h.appointments (applyLoadData data h).appointments ∧
      FieldApplied data.departments h.departments (applyLoadData data h).departments := by
  unfold applyLoadData
  cases data.patients <;> cases data.doctors <;> cases data.appointments <;>
    cases data.departments <;> exact ⟨rfl, rfl, rfl, rfl⟩

/-- C11, as the code has it. After a read that was sent (remote store
configured) and answered successfully with `data`, each of the four
collections is the array the response holds under its name when the field
holds one, and is the collection as it was when the response lacks the field
or holds a falsy value such as `null` in it. -/
theorem loadDataFromSheets_success_collections (data : LoadData) (s : App)
    (hconf : sheetsConfigured s.config = true) :
    FieldApplied data.patients s.hospitalData.patients
        (loadDataFromSheets (.ok data) s).hospitalData.patients ∧
      FieldApplied data.doctors s.hospitalData.doctors
        (loadDataFromSheets (.ok data) s).hospitalData.doctors ∧
      FieldApplied data.appointments s.hospitalData.appointments
        (loadDataFromSheets (.ok data) s).hospitalData.appointments ∧
      FieldApplied data.departments s.hospitalData.departments
        (loadDataFromSheets (.ok data) s).hospitalData.departments := by
  rw [loadDataFromSheets_ok_hospitalData data s hconf]
  exact applyLoadData_collections data s.hospitalData

/-- On the sample page a response with patients and departments arrays,
without a doctors field and with `null` for the appointments replaces the
first two collections and keeps the other two. -/
theorem loadDataFromSheets_success_collections_sample :
    sheetsConfigured sampleApp.config = true ∧
      (loadDataFromSheets (.ok partialResponse) sampleApp).hospitalData.patients =
        [samplePatient 8 (some 61) "Eve" "Orr" "Admitted"] ∧
      (loadDataFromSheets (.ok partialResponse) sampleApp).hospitalData.doctors =
        sampleStore.doctors ∧
      (loadDataFromSheets (.ok partialResponse) sampleApp).hospitalData.appointments =
        sampleStore.appointments ∧
      (loadDataFromSheets (.ok partialResponse) sampleApp).hospitalData.departments =
        [neurology] := by
  have h := loadDataFromSheets_success_collections partialResponse sampleApp (by decide)
  exact ⟨by decide, h.1, h.2.1, h.2.2.1, h.2.2.2⟩

/-- The response of the sample has an appointments field, holding `null`,
and the appointments after the read are the three appointments of before,
not what the field holds. -/
theorem loadDataFromSheets_null_field_keeps_collection :
    sheetsConfigured sampleApp.config = true ∧
      partialResponse.appointments ≠ .absent ∧
      (loadDataFromSheets (.ok partialResponse) sampleApp).hospitalData.appointments =
        sampleStore.appointments ∧
      ResponseField.array
          (loadDataFromSheets (.ok partialResponse) sampleApp).hospitalData.appointments
        ≠ partialResponse.appointments := by
  refine ⟨by decide, by decide, by decide, ?_⟩
  intro h
  have h2 : partialResponse.appointments = .falsy := rfl
  rw [h2] at h
  cases h

/-- C12. Whatever the form holds and however the remote write ends, after
`handleAddPatient` the patients collection is the previous collection with
the new patient appended at the end, and the notification shown last reports
the add as successful. -/
theorem handleAddPatient_appends_and_reports_success (formData : FormData) (w : WriteOutcome)
    (s : App) :
    (handleAddPatient formData w s).hospitalData.patients =
        s.hospitalData.patients ++ [newPatient formData s.hospitalData] ∧
      (handleAddPatient formData w s).toasts.getLast? =
        some { message := "Patient added successfully!", type := "success" } := by
  constructor
  · rw [handleAddPatient_hospitalData]
    rfl
  · unfold handleAddPatient
    simp [showToast]

/-- C13. In the state that `handleAddPatient`, `handleAddAppointment` with
both selections present, or a sent and successful `loadDataFromSheets`
leaves, the analytics (the age distribution and the department distribution)
are what `updateAnalytics` computes from the collections of that state. -/
theorem analytics_recomputed_after_mutation (formData : FormData) (w : WriteOutcome)
    (data : LoadData) (s : App) :
    (handleAddPatient formData w s).hospitalData.analytics =
        (updateAnalytics (handleAddPatient formData w s).hospitalData).analytics ∧
      (formData "patient_id" ≠ "" → formData "doctor_id" ≠ "" →
        (handleAddAppointment formData w s).hospitalData.analytics =
          (updateAnalytics (handleAddAppointment formData w s).hospitalData).analytics) ∧
      (sheetsConfigured s.config = true →
        (loadDataFromSheets (.ok data) s).hospitalData.analytics =
          (updateAnalytics (loadDataFromSheets (.ok data) s).hospitalData).analytics) := by
  refine ⟨?_, ?_, ?_⟩
  · rw [handleAddPatient_hospitalData]
    rfl
  · intro hp hd
    rw [handleAddAppointment_hospitalData formData w s hp hd]
    rfl
  · intro hconf
    rw [loadDataFromSheets_ok_hospitalData data s hconf]
    rfl

/-- On the sample page, after an appointment is added for the Cardiology
doctor the stored department distribution maps Cardiology to 3 and the stored
age distribution counts the two patients. -/
theorem analytics_recomputed_after_mutation_sample :
    appointmentForm "patient_id" ≠ "" ∧ appointmentForm "doctor_id" ≠ "" ∧
      (handleAddAppointment appointmentForm .notOk sampleApp).hospitalData.analytics =
        { patient_age_distribution := { Child := 1, Adult := 1, Elderly := 0 }
          patient_department_distribution := [("Cardiology", 3)] } := by
  have h := (analytics_recomputed_after_mutation appointmentForm .notOk partialResponse
    sampleApp).2.1 (by decide) (by decide)
  refine ⟨by decide, by decide, ?_⟩
  rw [h]
  decide

/-! ## Placeholders -/

/-- Every page of the empty list is empty. -/
theorem paginate_nil {α : Type} (page : Int) : paginate page ([] : List α) = [] := by
  unfold paginate jsSlice
  simp

/-- C14, as the code has it. An empty collection renders the empty-state
block of its list; a non-empty collection whose filters keep no record
renders a table body with no row and no block, and an empty pagination
bar. -/
theorem render_empty_states (page : Int) (s : App) :
    (s.hospitalData.patients = [] →
        (renderPatients page s).page.patientsTable =
          .emptyState "No Patients Yet"
            "Click \"+ Add Patient\" button above to register your first patient") ∧
      (s.hospitalData.patients ≠ [] →
        filterPatients s.page.patientSearch s.page.patientStatusFilter
          s.hospitalData.patients = [] →
        (renderPatients page s).page.patientsTable = .rows [] ∧
        (renderPatients page s).page.patientsPagination = []) ∧
      (s.hospitalData.appointments = [] →
        (renderAppointments page s).page.appointmentsTable =
          .emptyState "No Appointments Scheduled"
            "Click \"+ New Appointment\" to schedule your first appointment") ∧
      (s.hospitalData.appointments ≠ [] →
        filterAppointments s.hospitalData s.page.appointmentSearch
          s.page.appointmentStatusFilter s.page.appointmentDoctorFilter = [] →
        (renderAppointments page s).page.appointmentsTable = .rows [] ∧
        (renderAppointments page s).page.appointmentsPagination = []) := by
  refine ⟨?_, ?_, ?_, ?_⟩
  · intro h0
    unfold renderPatients
    simp [h0]
  · intro h0 hf
    have hlen : ¬ s.hospitalData.patients.length = 0 := fun h => h0 (List.length_eq_zero.1 h)
    unfold renderPatients
    simp only []
    rw [if_neg hlen, hf, paginate_nil]
    exact ⟨rfl, rfl⟩
  · intro h0
    unfold renderAppointments
    simp [h0]
  · intro h0 hf
    have hlen : ¬ s.hospitalData.appointments.length = 0 :=
      fun h => h0 (List.length_eq_zero.1 h)
    unfold renderAppointments
    simp only []
    rw [if_neg hlen, hf, paginate_nil]
    exact ⟨rfl, rfl⟩

/-- On the page without patients the patients table shows its empty-state
block; on the sample page with a search term that matches nothing it shows
no row. -/
theorem render_empty_states_sample :
    emptyApp.hospitalData.patients = [] ∧
      (renderPatients 1 emptyApp).page.patientsTable =
        .emptyState "No Patients Yet"
          "Click \"+ Add Patient\" button above to register your first patient" ∧
      noMatchApp.hospitalData.patients ≠ [] ∧
      (renderPatients 1 noMatchApp).page.patientsTable = .rows [] :=
  ⟨by decide, (render_empty_states 1 emptyApp).1 (by decide), by decide,
   ((render_empty_states 1 noMatchApp).2.1 (by decide) (by decide)).1⟩

/-- With two patients in the store and a search term that matches neither,
the patients table shows no empty-state block at all: its body has no row
and no block. -/
theorem render_no_match_shows_no_block :
    noMatchApp.hospitalData.patients.length = 2 ∧
      filterPatients noMatchApp.page.patientSearch noMatchApp.page.patientStatusFilter
        noMatchApp.hospitalData.patients = [] ∧
      (renderPatients 1 noMatchApp).page.patientsTable = .rows [] ∧
      ¬ ∃ heading text,
        (renderPatients 1 noMatchApp).page.patientsTable = .emptyState heading text := by
  refine ⟨by decide, by decide, by decide, ?_⟩
  rintro ⟨heading, text, h⟩
  have h2 : (renderPatients 1 noMatchApp).page.patientsTable = .rows [] := by decide
  rw [h2] at h
  cases h

/-! ## Reference cells -/

/-- Strict equality of an identifier with a reference holds exactly when
the reference is that integer. -/
theorem jsStrictEq_iff (a : Int) (b : JsNum) : jsStrictEq a b = true ↔ b = some a := by
  cases b with
  | none => simp [jsStrictEq]
  | some n =>
    simp only [jsStrictEq, beq_iff_eq, Option.some.injEq]
    exact eq_comm

/-- The patient cell the code builds is the patient cell of the
specification. -/
theorem patientCell_spec (h : HospitalData) (appt : Appointment) :
    IsPatientCell h.patients appt.patient_id (patientCell h appt) := by
  unfold patientCell findPatient
  cases hf : h.patients.find? (fun p => jsStrictEq p.patient_id appt.patient_id) with
  | none =>
    left
    refine ⟨?_, rfl⟩
    intro p hp heq
    have hnone := List.find?_eq_none.1 hf p hp
    exact hnone ((jsStrictEq_iff _ _).2 heq)
  | some p =>
    right
    obtain ⟨hp, before, after, hsplit, hbefore⟩ := List.find?_eq_some.1 hf
    refine ⟨before, p, after, hsplit, ?_, (jsStrictEq_iff _ _).1 hp, rfl⟩
    intro q hq heq
    have hq2 := hbefore q hq
    rw [(jsStrictEq_iff _ _).2 heq] at hq2
    cases hq2

/-- The doctor cell the code builds is the doctor cell of the
specification. -/
theorem doctorCell_spec (h : HospitalData) (appt : Appointment) :
    IsDoctorCell h.doctors appt.doctor_id (doctorCell h appt) := by
  unfold doctorCell findDoctor
  cases hf : h.doctors.find? (fun d => jsStrictEq d.doctor_id appt.doctor_id) with
  | none =>
    left
    refine ⟨?_, rfl⟩
    intro d hd heq
    have hnone := List.find?_eq_none.1 hf d hd
    exact hnone ((jsStrictEq_iff _ _).2 heq)
  | some d =>
    right
    obtain ⟨hd, before, after, hsplit, hbefore⟩ := List.find?_eq_some.1 hf
    refine ⟨before, d, after, hsplit, ?_, (jsStrictEq_iff _ _).1 hd, rfl⟩
    intro q hq heq
    have hq2 := hbefore q hq
    rw [(jsStrictEq_iff _ _).2 heq] at hq2
    cases hq2

/-- The rows of the appointments table after `renderAppointments`, at any
page: one row per appointment of the page slice. -/
theorem renderAppointments_dataRows (page : Int) (s : App) :
    (renderAppointments page s).page.appointmentsTable.dataRows =
      (paginate page (filterAppointments s.hospitalData s.page.appointmentSearch
        s.page.appointmentStatusFilter s.page.appointmentDoctorFilter)).map
        (appointmentRow s.hospitalData) := by
  unfold renderAppointments
  simp only []
  split
  · next h0 =>
    have hnil : s.hospitalData.appointments = [] := List.length_eq_zero.1 h0
    have hf : filterAppointments s.hospitalData s.page.appointmentSearch
        s.page.appointmentStatusFilter s.page.appointmentDoctorFilter = [] := by
      rw [filterAppointments_eq_filter, hnil]
      rfl
    rw [hf, paginate_nil]
    rfl
  · rfl

/-- The rows of the recent-appointments table after
`loadRecentAppointments`: one row per appointment of the first five. -/
theorem loadRecentAppointments_dataRows (s : App) :
    (loadRecentAppointments s).page.recentAppointmentsTable.dataRows =
      (jsSlice s.hospitalData.appointments 0 5).map (recentRow s.hospitalData) := by
  unfold loadRecentAppointments
  split
  · next h0 =>
    have hnil : s.hospitalData.appointments = [] := List.length_eq_zero.1 h0
    rw [hnil]
    rfl
  · rfl

/-- The slice `slice(0, 5)` of a list is its first five elements. -/
theorem jsSlice_zero_five {α : Type} (xs : List α) : jsSlice xs 0 5 = xs.take 5 := by
  unfold jsSlice
  have h0 : ¬ ((0 : Int) < 0) := by omega
  have h5 : ¬ ((5 : Int) < 0) := by omega
  simp only [h0, h5, if_false]
  have e1 : (min (0 : Int) (xs.length : Int)).toNat = 0 := by omega
  rw [e1, List.drop_zero]
  by_cases hlen : 5 ≤ xs.length
  · have e2 : (min (5 : Int) (xs.length : Int) - min (0 : Int) (xs.length : Int)).toNat = 5 := by
      omega
    rw [e2]
  · have e2 : (min (5 : Int) (xs.length : Int) - min (0 : Int) (xs.length : Int)).toNat
        = xs.length := by omega
    rw [e2, List.take_of_length_le (le_refl _), List.take_of_length_le (by omega)]

/-- C16. The rows of `renderAppointments` are, one for one and in order,
the rows of the appointments of its page slice, and the rows of
`loadRecentAppointments` those of the first five appointments, whether the
references of an appointment are matched or dangling. The row of an
appointment shows that appointment's own cells: its patient cell is `N/A`
when no patient has the appointment's `patient_id` and otherwise the first
and last name of the first patient that has it, and its doctor cell is `N/A`
when no doctor has the appointment's `doctor_id` and otherwise the name of
the first doctor that has it. -/
theorem appointment_rows_reference_cells (page : Int) (s : App) :
    List.Forall₂
        (fun (appt : Appointment) (row : AppointmentRow) =>
          row.appt_id = appt.appt_id ∧ row.date = appt.date ∧ row.time = appt.time ∧
          row.treatment = appt.treatment ∧ row.status = appt.status ∧
          IsPatientCell s.hospitalData.patients appt.patient_id row.patient ∧
          IsDoctorCell s.hospitalData.doctors appt.doctor_id row.doctor)
        (paginate page (filterAppointments s.hospitalData s.page.appointmentSearch
          s.page.appointmentStatusFilter s.page.appointmentDoctorFilter))
        (renderAppointments page s).page.appointmentsTable.dataRows ∧
      List.Forall₂
        (fun (appt : Appointment) (row : RecentRow) =>
          row.treatment = appt.treatment ∧ row.date = appt.date ∧ row.time = appt.time ∧
          row.status = appt.status ∧
          IsPatientCell s.hospitalData.patients appt.patient_id row.patient ∧
          IsDoctorCell s.hospitalData.doctors appt.doctor_id row.doctor)
        (s.hospitalData.appointments.take 5)
        (loadRecentAppointments s).page.recentAppointmentsTable.dataRows := by
  constructor
  · rw [renderAppointments_dataRows, List.forall₂_map_right_iff, List.forall₂_same]
    intro appt _
    exact ⟨rfl, rfl, rfl, rfl, rfl, patientCell_spec _ _, doctorCell_spec _ _⟩
  · rw [loadRecentAppointments_dataRows, jsSlice_zero_five, List.forall₂_map_right_iff,
      List.forall₂_same]
    intro appt _
    exact ⟨rfl, rfl, rfl, rfl, patientCell_spec _ _, doctorCell_spec _ _⟩

/-- On the sample page the third appointment refers to patient 9 and doctor
8, which the store does not have: the three rows show the patients Ann Lee,
Bob Ray and `N/A`, and the doctors Dr. Kim, Dr. Kim and `N/A`. -/
theorem appointment_rows_sample :
    (renderAppointments 1 sampleApp).page.appointmentsTable.dataRows.map
        (fun row => (row.appt_id, row.patient, row.doctor)) =
        [(1, "Ann Lee", "Dr. Kim"), (2, "Bob Ray", "Dr. Kim"), (5, "N/A", "N/A")] ∧
      (loadRecentAppointments sampleApp).page.recentAppointmentsTable.dataRows.map
        (fun row => (row.patient, row.doctor)) =
        [("Ann Lee", "Dr. Kim"), ("Bob Ray", "Dr. Kim"), ("N/A", "N/A")] := by
  refine ⟨by decide, by decide⟩

/-! ## The connection test -/

/-- The promise of `loadDataFromSheets` is never rejected, and the state it
is fulfilled with is the state `loadDataFromSheets` leaves. -/
theorem loadDataFromSheetsAwait_eq (r : ReadOutcome) (s : App) :
    loadDataFromSheetsAwait r s = { state := loadDataFromSheets r s, thrown := none } := by
  unfold loadDataFromSheetsAwait loadDataFromSheets loadDataFromSheetsTry
  split
  · rfl
  · cases r <;> rfl

/-- The function `showView` leaves the configuration as it is. -/
theorem showView_config (viewName : String) (s : App) :
    (showView viewName s).config = s.config := by
  unfold showView
  simp only []
  split
  · unfold loadDashboard loadRecentAppointments
    split <;> rfl
  · split
    · unfold loadPatients
      rw [(renderPatients_frame _ _).2.1]
    · split
      · unfold loadAppointments
        rw [(renderAppointments_frame _ _).2.1]
        split <;> rfl
      · rfl

/-- The function `showView` leaves the notification log as it is. -/
theorem showView_toasts (viewName : String) (s : App) :
    (showView viewName s).toasts = s.toasts := by
  unfold showView
  simp only []
  split
  · unfold loadDashboard loadRecentAppointments
    split <;> rfl
  · split
    · unfold loadPatients
      rw [(renderPatients_frame _ _).2.2.1]
    · split
      · unfold loadAppointments
        rw [(renderAppointments_frame _ _).2.2.1]
        split <;> rfl
      · rfl

/-- The function `loadDataFromSheets` leaves the configuration as it is. -/
theorem loadDataFromSheets_config (r : ReadOutcome) (s : App) :
    (loadDataFromSheets r s).config = s.config := by
  unfold loadDataFromSheets
  split
  · rfl
  · cases r with
    | ok data =>
      show (showView _ _).config = _
      rw [showView_config]
      rfl
    | rejected => rfl
    | notOk => rfl
    | badJson => rfl

/-- C17. For a URL that is not blank, whatever the read request ends with,
`testGoogleSheetsConnection` ends with `CONFIG.GOOGLE_SCRIPT_URL` the trimmed
URL, `CONFIG.USE_GOOGLE_SHEETS` true and `Connection successful!` as the
notification shown last: the promise of `loadDataFromSheets` is never
rejected, so the `catch` branch is not taken. For a blank URL the
configuration is as before and a warning is shown. -/
theorem testGoogleSheetsConnection_outcome (r : ReadOutcome) (s : App) :
    (trim s.page.googleScriptUrl ≠ "" →
        (loadDataFromSheetsAwait r
          { (showToast "Testing connection..." "info" s) with
            config := { s.config with GOOGLE_SCRIPT_URL := trim s.page.googleScriptUrl
                                      USE_GOOGLE_SHEETS := true } }).thrown = none ∧
        (testGoogleSheetsConnection r s).config.GOOGLE_SCRIPT_URL =
          trim s.page.googleScriptUrl ∧
        (testGoogleSheetsConnection r s).config.USE_GOOGLE_SHEETS = true ∧
        (testGoogleSheetsConnection r s).toasts.getLast? =
          some { message := "Connection successful!", type := "success" }) ∧
      (trim s.page.googleScriptUrl = "" →
        (testGoogleSheetsConnection r s).config = s.config ∧
        (testGoogleSheetsConnection r s).toasts =
          s.toasts ++ [{ message := "Please enter Google Apps Script URL"
                         type := "warning" }]) := by
  constructor
  · intro hurl
    refine ⟨by rw [loadDataFromSheetsAwait_eq], ?_⟩
    unfold testGoogleSheetsConnection
    simp only []
    rw [if_neg hurl, loadDataFromSheetsAwait_eq]
    simp only [updateStorageStatus]
    refine ⟨?_, ?_, by simp [showToast]⟩
    · show (loadDataFromSheets r _).config.GOOGLE_SCRIPT_URL = _
      rw [loadDataFromSheets_config]
    · show (loadDataFromSheets r _).config.USE_GOOGLE_SHEETS = _
      rw [loadDataFromSheets_config]
  · intro hurl
    unfold testGoogleSheetsConnection
    simp only []
    rw [if_pos hurl]
    exact ⟨rfl, rfl⟩

/-- On the settings page a padded URL and a rejected read end with the
trimmed URL stored, the remote store switched on and the success
notification; white space alone ends with the warning. -/
theorem testGoogleSheetsConnection_outcome_sample :
    trim settingsApp.page.googleScriptUrl = "https://sheets.test/new" ∧
      (testGoogleSheetsConnection .rejected settingsApp).config.GOOGLE_SCRIPT_URL =
        "https://sheets.test/new" ∧
      (testGoogleSheetsConnection .rejected settingsApp).config.USE_GOOGLE_SHEETS = true ∧
      (testGoogleSheetsConnection .rejected settingsApp).toasts.getLast? =
        some { message := "Connection successful!", type := "success" } ∧
      trim blankUrlApp.page.googleScriptUrl = "" ∧
      (testGoogleSheetsConnection .rejected blankUrlApp).config = sampleApp.config := by
  have h := (testGoogleSheetsConnection_outcome .rejected settingsApp).1 (by decide)
  have hb := (testGoogleSheetsConnection_outcome .rejected blankUrlApp).2 (by decide)
  refine ⟨by decide, ?_, h.2.2.1, h.2.2.2, by decide, hb.1⟩
  rw [h.2.1]
  decide

/-! ## Pages as a partition -/

/-- Page `k + 1` of a list is page `k` of the list without its first ten
elements. -/
theorem paginate_succ {α : Type} (k : Nat) (hk : 1 ≤ k) (xs : List α) :
    paginate ((k + 1 : Nat) : Int) xs = paginate (k : Int) (xs.drop 10) := by
  rw [paginate_eq_drop_take (k + 1) (by omega) xs, paginate_eq_drop_take k hk (xs.drop 10),
    List.drop_drop, List.length_drop]
  have e1 : 10 + (k - 1) * 10 = (k + 1 - 1) * 10 := by omega
  have e2 : min (k * 10) (xs.length - 10) - (k - 1) * 10
      = min ((k + 1) * 10) xs.length - (k + 1 - 1) * 10 := by omega
  rw [e1, e2]

/-- The first page of a list is its first ten elements. -/
theorem paginate_one {α : Type} (xs : List α) : paginate ((1 : Nat) : Int) xs = xs.take 10 := by
  rw [paginate_eq_drop_take 1 (le_refl 1) xs]
  simp only [Nat.sub_self, Nat.zero_mul, List.drop_zero, Nat.sub_zero, Nat.one_mul]
  by_cases h : 10 ≤ xs.length
  · rw [Nat.min_eq_left h]
  · rw [Nat.min_eq_right (by omega), List.take_of_length_le (le_refl _),
      List.take_of_length_le (by omega)]

/-- The pages 1 to `n` of a list of at most `10 * n` elements, joined in
page order, are the list. -/
theorem flatten_pages {α : Type} (n : Nat) (xs : List α) (hlen : xs.length ≤ 10 * n) :
    ((List.range' 1 n).map (fun (k : Nat) => paginate (k : Int) xs)).flatten = xs := by
  induction n generalizing xs with
  | zero =>
    have h0 : xs = [] := List.length_eq_zero.1 (by omega)
    rw [h0]
    rfl
  | succ n ih =>
    rw [List.range'_succ, List.map_cons, List.flatten_cons, paginate_one]
    have hshift : (List.range' (1 + 1) n).map (fun (k : Nat) => paginate (k : Int) xs)
        = (List.range' 1 n).map (fun (k : Nat) => paginate (k : Int) (xs.drop 10)) := by
      rw [← List.map_add_range' 1 1 n 1, List.map_map]
      apply List.map_congr_left
      intro k hk
      have hk1 : 1 ≤ k := (List.mem_range'_1.1 hk).1
      have hcomm : 1 + k = k + 1 := Nat.add_comm 1 k
      show paginate ((1 + k : Nat) : Int) xs = paginate (k : Int) (xs.drop 10)
      rw [hcomm]
      exact paginate_succ k hk1 xs
    rw [hshift, ih (xs.drop 10) (by rw [List.length_drop]; omega)]
    exact List.take_append_drop 10 xs

/-- The number of elements on page `k`, for `k` from 1 on. -/
theorem length_paginate {α : Type} (k : Nat) (hk : 1 ≤ k) (xs : List α) :
    (paginate (k : Int) xs).length = min (k * 10) xs.length - (k - 1) * 10 := by
  rw [paginate_eq_drop_take k hk xs, List.length_take, List.length_drop]
  omega

/-- C19. For a filtered collection of size `N`, the slices of the pages 1 to
`ceil(N / 10)` joined in page order are the filtered collection, so every
record is on exactly one page; every page before the last has exactly 10
rows, the last page has between 1 and 10 rows, and every page number above
`ceil(N / 10)` gives an empty slice. -/
theorem pages_partition_filtered {α : Type} (filtered : List α) :
    ((List.range' 1 ⌈(filtered.length : ℚ) / 10⌉₊).map
        (fun (k : Nat) => paginate (k : Int) filtered)).flatten = filtered ∧
      (∀ k : Nat, 1 ≤ k → k < ⌈(filtered.length : ℚ) / 10⌉₊ →
        (paginate (k : Int) filtered).length = 10) ∧
      (0 < filtered.length →
        1 ≤ (paginate ((⌈(filtered.length : ℚ) / 10⌉₊ : Nat) : Int) filtered).length ∧
        (paginate ((⌈(filtered.length : ℚ) / 10⌉₊ : Nat) : Int) filtered).length ≤ 10) ∧
      (∀ k : Nat, ⌈(filtered.length : ℚ) / 10⌉₊ < k → paginate (k : Int) filtered = []) := by
  have hceil : ⌈(filtered.length : ℚ) / 10⌉₊ = (filtered.length + 9) / 10 := by
    rw [← mathCeilDiv_ten]
    rfl
  rw [hceil]
  refine ⟨flatten_pages _ _ (by omega), ?_, ?_, ?_⟩
  · intro k hk hlt
    rw [length_paginate k hk]
    omega
  · intro hpos
    rw [length_paginate _ (by omega)]
    omega
  · intro k hlt
    apply List.length_eq_zero.1
    rw [length_paginate k (by omega)]
    omega

/-- Twelve records make two pages: ten rows on page 1, two on page 2, none
on page 3. -/
theorem pages_partition_filtered_sample :
    ⌈((twelvePatients.patients.length : Nat) : ℚ) / 10⌉₊ = 2 ∧
      (paginate 1 twelvePatients.patients).length = 10 ∧
      (paginate 2 twelvePatients.patients).length = 2 ∧
      paginate 3 twelvePatients.patients = [] ∧
      paginate 1 twelvePatients.patients ++ paginate 2 twelvePatients.patients =
        twelvePatients.patients := by
  have h := pages_partition_filtered twelvePatients.patients
  have hceil : ⌈((twelvePatients.patients.length : Nat) : ℚ) / 10⌉₊ = 2 := by
    rw [← mathCeilDiv_ten]
    decide
  rw [hceil] at h
  refine ⟨hceil, h.2.1 1 (by decide) (by decide), by decide, h.2.2.2 3 (by decide), ?_⟩
  have hcat := h.1
  simpa using hcat

/-! ## The sheet tables -/

/-- The slice `slice(1)` of a list is the list without its first element. -/
theorem jsSlice_one {α : Type} (xs : List α) : jsSlice xs 1 xs.length = xs.tail := by
  unfold jsSlice
  cases xs with
  | nil => rfl
  | cons x xs =>
    have h1 : ¬ ((1 : Int) < 0) := by omega
    have h2 : ¬ (((x :: xs).length : Int) < 0) := by omega
    simp only [h1, h2, if_false]
    have e1 : (min (1 : Int) ((x :: xs).length : Int)).toNat = 1 := by
      simp only [List.length_cons]; push_cast; omega
    have e2 : (min ((x :: xs).length : Int) ((x :: xs).length : Int)
        - min (1 : Int) ((x :: xs).length : Int)).toNat = xs.length := by
      simp only [List.length_cons]; push_cast; omega
    rw [e1, e2]
    simp

/-- C20. For a response with status `success` whose table has at least the
header row, `fetchData` leaves in the table one row per data row after the
header, each with one cell per value of its data row in order, and for the
sheets Patients, Doctors and Appointments the counter of the sheet shows
that same number, `data.length - 1`; a response with any other status leaves
the tables and the counters as they are. -/
theorem fetchData_rows_and_totals (sheetName tableId : String) (res : SheetResponse)
    (s : SheetPage) :
    (res.status = "success" → 1 ≤ res.data.length →
        (fetchData sheetName tableId res s).tbody tableId =
          res.data.tail.map (fun row => row.map cellText) ∧
        ((fetchData sheetName tableId res s).tbody tableId).length = res.data.length - 1 ∧
        (sheetName = "Patients" →
          (fetchData sheetName tableId res s).totalPatients =
            toString ((((fetchData sheetName tableId res s).tbody tableId).length : Nat) : Int)) ∧
        (sheetName = "Doctors" →
          (fetchData sheetName tableId res s).totalDoctors =
            toString ((((fetchData sheetName tableId res s).tbody tableId).length : Nat) : Int)) ∧
        (sheetName = "Appointments" →
          (fetchData sheetName tableId res s).totalAppointments =
            toString ((((fetchData sheetName tableId res s).tbody tableId).length : Nat) : Int))) ∧
      (res.status ≠ "success" → fetchData sheetName tableId res s = s) := by
  constructor
  · intro hs hlen
    have htab : (fetchData sheetName tableId res s).tbody tableId =
        res.data.tail.map (fun row => row.map cellText) := by
      unfold fetchData
      rw [if_pos hs, jsSlice_one]
      simp only []
      split <;> split <;> split <;> simp
    have hcount : (((res.data.tail.map (fun row => row.map cellText)).length : Nat) : Int)
        = (res.data.length : Int) - 1 := by
      rw [List.length_map, List.length_tail]
      omega
    refine ⟨htab, by rw [htab, List.length_map, List.length_tail], ?_, ?_, ?_⟩
    · intro hname
      rw [htab, hcount]
      unfold fetchData
      rw [if_pos hs]
      simp only []
      split <;> split <;> simp_all
    · intro hname
      rw [htab, hcount]
      unfold fetchData
      rw [if_pos hs]
      simp only []
      split <;> simp_all
    · intro hname
      rw [htab, hcount]
      unfold fetchData
      rw [if_pos hs]
      simp only []
      rw [if_pos hname]
  · intro hs
    unfold fetchData
    rw [if_neg hs]

/-- A successful Patients response with a header and two data rows fills the
table with two rows of three cells and sets the patients counter to 2. -/
theorem fetchData_rows_and_totals_sample :
    twoRowResponse.status = "success" ∧ 1 ≤ twoRowResponse.data.length ∧
      (fetchData "Patients" "patientsTable" twoRowResponse blankSheetPage).tbody "patientsTable"
        = [["1", "Ann", "10"], ["2", "Bob", ""]] ∧
      (fetchData "Patients" "patientsTable" twoRowResponse blankSheetPage).totalPatients
        = "2" := by
  have h := (fetchData_rows_and_totals "Patients" "patientsTable" twoRowResponse
    blankSheetPage).1 (by decide) (by decide)
  refine ⟨by decide, by decide, h.1.trans (by decide), ?_⟩
  rw [h.2.2.1 rfl, h.1]
  decide

/-! ## The department distribution as a whole -/

/-- The filter callback of the department loop tests the department an
appointment falls in. -/
theorem doctorInDepartment_eq (doctors : List Doctor) (name : String) (a : Appointment) :
    doctorInDepartment doctors name a = (departmentOf doctors a == some name) := by
  unfold doctorInDepartment departmentOf findDoctor
  cases h : doctors.find? (fun doc => jsStrictEq doc.doctor_id a.doctor_id) with
  | none => rfl
  | some doc =>
    by_cases hd : doc.department = name <;> simp [hd]

/-- The keys of an object after the own entry `k` was written. -/
theorem keys_put (o : JsObject) (k : String) (v : Nat) :
    (JsObject.put o k v).map Prod.fst =
      if o.any (fun e => e.1 == k) then o.map Prod.fst else o.map Prod.fst ++ [k] := by
  unfold JsObject.put
  split
  · rw [List.map_map]
    apply List.map_congr_left
    intro e _
    by_cases he : e.1 = k
    · simp [he]
    · simp [he]
  · simp

/-- The assignment `o[k] = v` keeps the keys pairwise distinct. -/
theorem nodup_keys_set (o : JsObject) (k : String) (v : Nat)
    (h : (o.map Prod.fst).Nodup) : ((JsObject.set o k v).map Prod.fst).Nodup := by
  unfold JsObject.set
  split
  · exact h
  · rw [keys_put]
    split
    · exact h
    · next hany =>
      refine List.Nodup.append h (List.nodup_singleton _) ?_
      intro x hx hx2
      rw [List.mem_singleton] at hx2
      subst hx2
      apply hany
      obtain ⟨e, he, hek⟩ := List.mem_map.1 hx
      rw [List.any_eq_true]
      exact ⟨e, he, by simp [hek]⟩

/-- The department loop keeps the keys pairwise distinct. -/
theorem nodup_keys_foldl_countDepartment (doctors : List Doctor)
    (appointments : List Appointment) (ds : List Department) (o : JsObject)
    (h : (o.map Prod.fst).Nodup) :
    ((ds.foldl (countDepartment doctors appointments) o).map Prod.fst).Nodup := by
  induction ds generalizing o with
  | nil => exact h
  | cons d ds ih =>
    rw [List.foldl_cons]
    apply ih
    unfold countDepartment
    simp only []
    split
    · exact nodup_keys_set _ _ _ h
    · exact h

/-- In an object with pairwise distinct keys every entry is read back by
its key. -/
theorem get_of_mem (o : JsObject) (h : (o.map Prod.fst).Nodup) (e : String × Nat)
    (he : e ∈ o) : JsObject.get o e.1 = some e.2 := by
  induction o with
  | nil => cases he
  | cons x o ih =>
    rw [List.map_cons, List.nodup_cons] at h
    rw [get_cons]
    rcases List.mem_cons.1 he with hx | hx
    · rw [hx, if_pos rfl]
    · have hne : ¬ (x.1 = e.1) := by
        intro hxe
        apply h.1
        rw [hxe]
        exact List.mem_map_of_mem _ hx
      rw [if_neg hne]
      exact ih h.2 hx

/-- A key that reads as a value is the key of an entry with that value. -/
theorem mem_of_get (o : JsObject) (k : String) (v : Nat) (h : JsObject.get o k = some v) :
    (k, v) ∈ o := by
  induction o with
  | nil => cases h
  | cons x o ih =>
    rw [get_cons] at h
    by_cases hx : x.1 = k
    · rw [if_pos hx] at h
      have hv : x.2 = v := Option.some.inj h
      have : x = (k, v) := by
        rw [← hx, ← hv]
      rw [this]
      exact List.mem_cons_self _ _
    · rw [if_neg hx] at h
      exact List.mem_cons_of_mem _ (ih h)

/-- Counting by two tests that no element passes together adds up to
counting by their disjunction. -/
theorem countP_add_countP_of_disjoint {α : Type} (l : List α) (p q : α → Bool)
    (hd : ∀ x ∈ l, ¬ (p x = true ∧ q x = true)) :
    l.countP p + l.countP q = l.countP (fun x => p x || q x) := by
  induction l with
  | nil => rfl
  | cons x l ih =>
    have ih2 := ih (fun y hy => hd y (List.mem_cons_of_mem _ hy))
    have hx := hd x (List.mem_cons_self _ _)
    simp only [List.countP_cons]
    cases hp : p x <;> cases hq : q x
    · simp; omega
    · simp; omega
    · simp; omega
    · exact absurd ⟨hp, hq⟩ hx

/-- Over pairwise distinct department names, the per-name appointment
counts add up to the number of appointments that fall in one of the names. -/
theorem sum_counts_eq_countP (doctors : List Doctor) (appointments : List Appointment)
    (keys : List String) (hk : keys.Nodup) :
    (keys.map (fun k =>
        appointments.countP (fun a => departmentOf doctors a == some k))).sum =
      appointments.countP (fun a => keys.any (fun k => departmentOf doctors a == some k)) := by
  induction keys with
  | nil => simp
  | cons k ks ih =>
    rw [List.nodup_cons] at hk
    rw [List.map_cons, List.sum_cons, ih hk.2,
      countP_add_countP_of_disjoint appointments
        (fun a => departmentOf doctors a == some k)
        (fun a => ks.any (fun k2 => departmentOf doctors a == some k2))]
    · apply congrArg (fun f => List.countP f appointments)
      funext a
      simp [List.any_cons]
    · intro a _ hboth
      obtain ⟨h1, h2⟩ := hboth
      rw [List.any_eq_true] at h2
      obtain ⟨k2, hk2, h3⟩ := h2
      have e1 : departmentOf doctors a = some k := by simpa using h1
      have e2 : departmentOf doctors a = some k2 := by simpa using h3
      have : k = k2 := Option.some.inj (e1.symm.trans e2)
      exact hk.1 (this ▸ hk2)

/-- Every entry of the department distribution carries the name of a
department of the store, other than `__proto__`, and the positive number of
appointments that fall in it. -/
theorem department_entry (h : HospitalData) (e : String × Nat)
    (he : e ∈ (updateAnalytics h).analytics.patient_department_distribution) :
    (∃ d ∈ h.departments, d.name = e.1) ∧ 0 < e.2 ∧
      e.2 = h.appointments.countP (fun a => departmentOf h.doctors a == some e.1) ∧
      e.1 ≠ "__proto__" := by
  have hnodup := nodup_keys_foldl_countDepartment h.doctors h.appointments h.departments []
    List.nodup_nil
  have hget := get_of_mem _ hnodup e he
  have key := foldl_countDepartment_get h.doctors h.appointments h.departments [] e.1
  rw [get_nil] at key
  have hget2 : JsObject.get
      (h.departments.foldl (countDepartment h.doctors h.appointments) []) e.1 = some e.2 := hget
  rw [hget2] at key
  have hfun : doctorInDepartment h.doctors e.1 =
      (fun a => departmentOf h.doctors a == some e.1) := by
    funext a
    exact doctorInDepartment_eq _ _ _
  by_cases hc : (∃ d ∈ h.departments, d.name = e.1) ∧ (e.1 ≠ "__proto__" ∧
      0 < (h.appointments.filter (doctorInDepartment h.doctors e.1)).length)
  · rw [if_pos hc] at key
    have hval : e.2 = (h.appointments.filter (doctorInDepartment h.doctors e.1)).length :=
      Option.some.inj key
    refine ⟨hc.1, by rw [hval]; exact hc.2.2, ?_, hc.2.1⟩
    rw [hval, List.countP_eq_length_filter, hfun]
  · rw [if_neg hc] at key
    cases key

/-- Among doctors with pairwise distinct identifiers, the doctor found for a
reference is the doctor that carries it. -/
theorem findDoctor_of_mem (doctors : List Doctor)
    (hnodup : (doctors.map (fun d => d.doctor_id)).Nodup) (doc : Doctor) (hdoc : doc ∈ doctors)
    (id : JsNum) (hid : id = some doc.doctor_id) : findDoctor doctors id = some doc := by
  unfold findDoctor
  cases hf : doctors.find? (fun d => jsStrictEq d.doctor_id id) with
  | none =>
    have hnone := List.find?_eq_none.1 hf doc hdoc
    exact absurd ((jsStrictEq_iff _ _).2 hid) hnone
  | some doc2 =>
    have hmem : doc2 ∈ doctors := List.mem_of_find?_eq_some hf
    have hp : jsStrictEq doc2.doctor_id id = true := (List.find?_eq_some.1 hf).1
    have hid2 : id = some doc2.doctor_id := (jsStrictEq_iff _ _).1 hp
    have hsame : doc2.doctor_id = doc.doctor_id := Option.some.inj (hid2.symm.trans hid)
    rw [List.inj_on_of_nodup_map hnodup hmem hdoc hsame]

/-- An appointment of the store falls in a counted department exactly when
a doctor is found for it whose department, other than `__proto__`, is the
name of a department of the store. -/
theorem any_key_iff (h : HospitalData) (a : Appointment) (ha : a ∈ h.appointments) :
    (((updateAnalytics h).analytics.patient_department_distribution.map Prod.fst).any
        (fun k => departmentOf h.doctors a == some k) = true) ↔
      ∃ doc, findDoctor h.doctors a.doctor_id = some doc ∧ doc.department ≠ "__proto__" ∧
        ∃ d ∈ h.departments, d.name = doc.department := by
  constructor
  · intro hany
    rw [List.any_eq_true] at hany
    obtain ⟨k, hk, hdep⟩ := hany
    obtain ⟨e, he, rfl⟩ := List.mem_map.1 hk
    have hentry := department_entry h e he
    have hdep2 : departmentOf h.doctors a = some e.1 := by simpa using hdep
    unfold departmentOf at hdep2
    obtain ⟨doc, hdoc, hname⟩ := Option.map_eq_some'.1 hdep2
    obtain ⟨d, hd1, hd2⟩ := hentry.1
    exact ⟨doc, hdoc, by rw [hname]; exact hentry.2.2.2, d, hd1, hd2.trans hname.symm⟩
  · rintro ⟨doc, hdoc, hproto, d, hd1, hd2⟩
    have hdep : departmentOf h.doctors a = some d.name := by
      unfold departmentOf
      rw [hdoc, hd2]
      rfl
    have hin : doctorInDepartment h.doctors d.name a = true := by
      rw [doctorInDepartment_eq, hdep]
      simp
    have hpos : 0 < (h.appointments.filter (doctorInDepartment h.doctors d.name)).length :=
      List.length_pos_of_mem (List.mem_filter.2 ⟨ha, hin⟩)
    have key := foldl_countDepartment_get h.doctors h.appointments h.departments [] d.name
    rw [if_pos ⟨⟨d, hd1, rfl⟩, by rw [hd2]; exact hproto, hpos⟩] at key
    have hmem := mem_of_get _ _ _ key
    rw [List.any_eq_true]
    refine ⟨d.name, ?_, by rw [hdep]; simp⟩
    exact List.mem_map.2 ⟨_, hmem, rfl⟩

/-- The values of the department distribution add up to the number of
appointments that fall in one of its keys. -/
theorem sum_department_distribution (h : HospitalData) :
    ((updateAnalytics h).analytics.patient_department_distribution.map Prod.snd).sum =
      h.appointments.countP (fun a =>
        ((updateAnalytics h).analytics.patient_department_distribution.map Prod.fst).any
          (fun k => departmentOf h.doctors a == some k)) := by
  have hnodup := nodup_keys_foldl_countDepartment h.doctors h.appointments h.departments []
    List.nodup_nil
  have hvals : (updateAnalytics h).analytics.patient_department_distribution.map Prod.snd =
      ((updateAnalytics h).analytics.patient_department_distribution.map Prod.fst).map
        (fun k => h.appointments.countP (fun a => departmentOf h.doctors a == some k)) := by
    rw [List.map_map]
    apply List.map_congr_left
    intro e he
    exact (department_entry h e he).2.2.1
  rw [hvals]
  exact sum_counts_eq_countP h.doctors h.appointments _ hnodup

/-- C18, as the code has it. After `updateAnalytics` the values of the
department distribution add up to at most the number of appointments, every
value is positive and every key is the name of a department. When no
department is named `__proto__`, the values add up to exactly the number of
appointments when and only when for every appointment the doctor that the
lookup by its `doctor_id` returns, the first one carrying the identifier,
exists and has a department that is the name of a department of the store;
with pairwise distinct doctor identifiers that doctor is the doctor that
carries the identifier. -/
theorem department_distribution_total (h : HospitalData) :
    ((updateAnalytics h).analytics.patient_department_distribution.map Prod.snd).sum
        ≤ h.appointments.length ∧
      ((∀ d ∈ h.departments, d.name ≠ "__proto__") →
        (((updateAnalytics h).analytics.patient_department_distribution.map Prod.snd).sum
            = h.appointments.length ↔
          ∀ a ∈ h.appointments, ∃ doc, findDoctor h.doctors a.doctor_id = some doc ∧
            ∃ d ∈ h.departments, d.name = doc.department)) ∧
      ((∀ d ∈ h.departments, d.name ≠ "__proto__") →
        (h.doctors.map (fun d => d.doctor_id)).Nodup →
        (((updateAnalytics h).analytics.patient_department_distribution.map Prod.snd).sum
            = h.appointments.length ↔
          ∀ a ∈ h.appointments, ∃ doc ∈ h.doctors, a.doctor_id = some doc.doctor_id ∧
            ∃ d ∈ h.departments, d.name = doc.department)) ∧
      (∀ e ∈ (updateAnalytics h).analytics.patient_department_distribution, 0 < e.2) ∧
      (∀ e ∈ (updateAnalytics h).analytics.patient_department_distribution,
        ∃ d ∈ h.departments, d.name = e.1) := by
  have hiff : (∀ d ∈ h.departments, d.name ≠ "__proto__") →
      (((updateAnalytics h).analytics.patient_department_distribution.map Prod.snd).sum
        = h.appointments.length ↔
      ∀ a ∈ h.appointments, ∃ doc, findDoctor h.doctors a.doctor_id = some doc ∧
        ∃ d ∈ h.departments, d.name = doc.department) := by
    intro hnoproto
    rw [sum_department_distribution, List.countP_eq_length]
    constructor
    · intro hall a ha
      obtain ⟨doc, hdoc, _, hd⟩ := (any_key_iff h a ha).1 (hall a ha)
      exact ⟨doc, hdoc, hd⟩
    · intro hall a ha
      obtain ⟨doc, hdoc, d, hd1, hd2⟩ := hall a ha
      exact (any_key_iff h a ha).2
        ⟨doc, hdoc, by rw [← hd2]; exact hnoproto d hd1, d, hd1, hd2⟩
  refine ⟨?_, hiff, ?_, fun e he => (department_entry h e he).2.1,
    fun e he => (department_entry h e he).1⟩
  · rw [sum_department_distribution]
    exact List.countP_le_length _
  · intro hnoproto hnodup
    rw [hiff hnoproto]
    constructor
    · intro hall a ha
      obtain ⟨doc, hdoc, hd⟩ := hall a ha
      have hmem : doc ∈ h.doctors := List.mem_of_find?_eq_some hdoc
      have hp : jsStrictEq doc.doctor_id a.doctor_id = true := (List.find?_eq_some.1 hdoc).1
      exact ⟨doc, hmem, (jsStrictEq_iff _ _).1 hp, hd⟩
    · intro hall a ha
      obtain ⟨doc, hmem, hid, hd⟩ := hall a ha
      exact ⟨doc, findDoctor_of_mem h.doctors hnodup doc hmem a.doctor_id hid, hd⟩

/-- In the sample store, which has no department named `__proto__` and
whose one doctor has a distinct identifier, the distribution is Cardiology 2:
its values add up to 2, below the three appointments, and not every
appointment refers to a doctor of a department. -/
theorem department_distribution_total_sample :
    (sampleStore.doctors.map (fun d => d.doctor_id)).Nodup ∧
      (updateAnalytics sampleStore).analytics.patient_department_distribution
        = [("Cardiology", 2)] ∧
      ((updateAnalytics sampleStore).analytics.patient_department_distribution.map
        Prod.snd).sum ≤ sampleStore.appointments.length ∧
      ¬ ∀ a ∈ sampleStore.appointments, ∃ doc ∈ sampleStore.doctors,
        a.doctor_id = some doc.doctor_id ∧
          ∃ d ∈ sampleStore.departments, d.name = doc.department :=
  ⟨by decide, by decide, (department_distribution_total sampleStore).1,
   fun hall =>
    absurd (((department_distribution_total sampleStore).2.2.1 (by decide) (by decide)).2 hall)
      (by decide)⟩

/-- In a store where the identifier 7 is carried by a doctor of Oncology,
which is no department of the store, and after it by a doctor of Cardiology,
which is one, the one appointment refers to identifier 7: its `doctor_id`
matches a doctor whose department is the name of a department, yet the
lookup returns the Oncology doctor, the distribution is empty and its values
add up to 0, not to the one appointment. -/
theorem department_distribution_total_first_match :
    (∀ a ∈ twoDoctorsOneIdStore.appointments, ∃ doc ∈ twoDoctorsOneIdStore.doctors,
        a.doctor_id = some doc.doctor_id ∧
          ∃ d ∈ twoDoctorsOneIdStore.departments, d.name = doc.department) ∧
      twoDoctorsOneIdStore.appointments.length = 1 ∧
      (updateAnalytics twoDoctorsOneIdStore).analytics.patient_department_distribution = [] ∧
      ((updateAnalytics twoDoctorsOneIdStore).analytics.patient_department_distribution.map
        Prod.snd).sum ≠ twoDoctorsOneIdStore.appointments.length := by
  refine ⟨by decide, by decide, by decide, by decide⟩

/-! ## Sorting -/

/-- The code-unit comparison is the strict dictionary order on sequences of
code units. -/
theorem codeUnitsLt_iff (a b : List Nat) : codeUnitsLt a b = true ↔ a < b := by
  induction a generalizing b with
  | nil =>
    cases b with
    | nil => simp [codeUnitsLt]
    | cons y ys =>
      simp only [codeUnitsLt, true_iff]
      exact List.Lex.nil
  | cons x xs ih =>
    cases b with
    | nil => simp [codeUnitsLt]
    | cons y ys =>
      simp only [codeUnitsLt, Bool.or_eq_true, decide_eq_true_eq, Bool.and_eq_true,
        beq_iff_eq, ih]
      constructor
      · rintro (h | ⟨rfl, h⟩)
        · exact List.Lex.rel h
        · exact List.Lex.cons h
      · intro h
        rcases h with _ | h | h
        · exact Or.inr ⟨rfl, h⟩
        · exact Or.inl h

/-- When the comparison `lt` is the strict order of a key on the elements
of a list, `sort` with the ascending comparator orders the list by
non-decreasing key and `sort` with the descending comparator orders it by
non-increasing key. -/
theorem arraySort_sorted_by_key {α K : Type} [LinearOrder K] (key : α → K)
    (lt : α → α → Bool) (xs : List α)
    (hlt : ∀ a ∈ xs, ∀ b ∈ xs, (lt a b = true ↔ key a < key b)) :
    (arraySort (sortComparator lt false) xs).Pairwise (fun a b => key a ≤ key b) ∧
      (arraySort (sortComparator lt true) xs).Pairwise (fun a b => key b ≤ key a) := by
  constructor
  · have hl : ∀ a ∈ xs, ∀ b ∈ xs, (sortComparator lt false a b ≤ 0 ↔ key a ≤ key b) := by
      intro a ha b hb
      have hab := hlt a ha b hb
      have hba := hlt b hb a ha
      unfold sortComparator
      by_cases h1 : lt a b = true
      · simp only [h1, if_true]
        exact ⟨fun _ => le_of_lt (hab.1 h1), fun _ => by decide⟩
      · by_cases h2 : lt b a = true
        · simp only [h1, h2, if_true, if_false]
          exact ⟨fun h => absurd h (by decide), fun h => absurd (hba.1 h2) (not_lt.2 h)⟩
        · simp only [h1, h2, if_false]
          have h3 : ¬ key b < key a := fun h => h2 (hba.2 h)
          exact ⟨fun _ => not_lt.1 h3, fun _ => le_refl _⟩
    have hmap := List.map_insertionSort (r := fun a b => sortComparator lt false a b ≤ 0)
      (s := fun (x y : K) => x ≤ y) key xs hl
    have hsorted := List.sorted_insertionSort (fun (x y : K) => x ≤ y) (xs.map key)
    rw [← hmap] at hsorted
    exact List.pairwise_map.1 hsorted
  · have hl : ∀ a ∈ xs, ∀ b ∈ xs, (sortComparator lt true a b ≤ 0 ↔ key b ≤ key a) := by
      intro a ha b hb
      have hab := hlt a ha b hb
      have hba := hlt b hb a ha
      unfold sortComparator
      by_cases h1 : lt a b = true
      · simp only [h1, if_true]
        exact ⟨fun h => absurd h (by decide), fun h => absurd (hab.1 h1) (not_lt.2 h)⟩
      · by_cases h2 : lt b a = true
        · simp only [h1, h2, if_true, if_false]
          exact ⟨fun _ => le_of_lt (hba.1 h2), fun _ => by decide⟩
        · simp only [h1, h2, if_false]
          have h3 : ¬ key a < key b := fun h => h1 (hab.2 h)
          exact ⟨fun _ => not_lt.1 h3, fun _ => le_refl _⟩
    have hmap := List.map_insertionSort (r := fun a b => sortComparator lt true a b ≤ 0)
      (s := fun (x y : K) => y ≤ x) key xs hl
    have hsorted := List.sorted_insertionSort (fun (x y : K) => y ≤ x) (xs.map key)
    rw [← hmap] at hsorted
    exact List.pairwise_map.1 hsorted

/-- On a column whose values are all numbers or all strings, `sort` with
the comparator of `sortTable` permutes the list and orders it by the column,
ascending for `isAscending = false` and descending for `isAscending = true`. -/
theorem arraySort_column {α : Type} (col : Column α) (xs : List α)
    (hcol : AllNumbersOrAllStrings col xs) :
    (arraySort (sortComparator col.lt false) xs).Perm xs ∧
      (arraySort (sortComparator col.lt false) xs).Pairwise (fun a b => ColumnLe col a b) ∧
      (arraySort (sortComparator col.lt true) xs).Perm xs ∧
      (arraySort (sortComparator col.lt true) xs).Pairwise (fun a b => ColumnLe col b a) := by
  refine ⟨List.perm_insertionSort _ _, ?_, List.perm_insertionSort _ _, ?_⟩
  · cases col with
    | number f =>
      have hsome : ∀ a ∈ xs, f a = some ((f a).getD 0) := by
        intro a ha
        obtain ⟨x, hx⟩ := Option.ne_none_iff_exists'.1 (hcol a ha)
        rw [hx]
        rfl
      have hlt : ∀ a ∈ xs, ∀ b ∈ xs,
          ((Column.number f).lt a b = true ↔ (f a).getD 0 < (f b).getD 0) := by
        intro a ha b hb
        obtain ⟨x, hx⟩ := Option.ne_none_iff_exists'.1 (hcol a ha)
        obtain ⟨y, hy⟩ := Option.ne_none_iff_exists'.1 (hcol b hb)
        simp only [Column.lt, hx, hy, Option.getD_some, decide_eq_true_eq]
      have hs := (arraySort_sorted_by_key (fun a => (f a).getD 0) (Column.number f).lt xs hlt).1
      refine hs.imp_of_mem ?_
      intro a b ha hb hab
      have ha2 : a ∈ xs := (List.mem_insertionSort _).1 ha
      have hb2 : b ∈ xs := (List.mem_insertionSort _).1 hb
      exact ⟨(f a).getD 0, (f b).getD 0, hsome a ha2, hsome b hb2, hab⟩
    | string f =>
      have hlt : ∀ a ∈ xs, ∀ b ∈ xs,
          ((Column.string f).lt a b = true ↔ toUTF16 (f a) < toUTF16 (f b)) := by
        intro a _ b _
        exact codeUnitsLt_iff _ _
      exact (arraySort_sorted_by_key (fun a => toUTF16 (f a)) (Column.string f).lt xs hlt).1
    | boolean f => exact absurd hcol id
    | undefined => exact absurd hcol id
  · cases col with
    | number f =>
      have hsome : ∀ a ∈ xs, f a = some ((f a).getD 0) := by
        intro a ha
        obtain ⟨x, hx⟩ := Option.ne_none_iff_exists'.1 (hcol a ha)
        rw [hx]
        rfl
      have hlt : ∀ a ∈ xs, ∀ b ∈ xs,
          ((Column.number f).lt a b = true ↔ (f a).getD 0 < (f b).getD 0) := by
        intro a ha b hb
        obtain ⟨x, hx⟩ := Option.ne_none_iff_exists'.1 (hcol a ha)
        obtain ⟨y, hy⟩ := Option.ne_none_iff_exists'.1 (hcol b hb)
        simp only [Column.lt, hx, hy, Option.getD_some, decide_eq_true_eq]
      have hs := (arraySort_sorted_by_key (fun a => (f a).getD 0) (Column.number f).lt xs hlt).2
      refine hs.imp_of_mem ?_
      intro a b ha hb hab
      have ha2 : a ∈ xs := (List.mem_insertionSort _).1 ha
      have hb2 : b ∈ xs := (List.mem_insertionSort _).1 hb
      exact ⟨(f b).getD 0, (f a).getD 0, hsome b hb2, hsome a ha2, hab⟩
    | string f =>
      have hlt : ∀ a ∈ xs, ∀ b ∈ xs,
          ((Column.string f).lt a b = true ↔ toUTF16 (f a) < toUTF16 (f b)) := by
        intro a _ b _
        exact codeUnitsLt_iff _ _
      exact (arraySort_sorted_by_key (fun a => toUTF16 (f a)) (Column.string f).lt xs hlt).2
    | boolean f => exact absurd hcol id
    | undefined => exact absurd hcol id

/-- Sorting a list twice with the comparator of `sortTable`, first
ascending and then descending, toggles its order. -/
theorem arraySort_toggles {α : Type} (col : Column α) (column : String) (xs : List α)
    (hcol : AllNumbersOrAllStrings col xs) :
    TogglesOrder col column xs
      (arraySort (sortComparator col.lt false) xs)
      (arraySort (sortComparator col.lt true) (arraySort (sortComparator col.lt false) xs))
      (sortedState column false) (sortedState column true) := by
  have h1 := arraySort_column col xs hcol
  have hcol2 : AllNumbersOrAllStrings col (arraySort (sortComparator col.lt false) xs) := by
    cases col with
    | number f =>
      intro x hx
      exact hcol x (h1.1.mem_iff.1 hx)
    | string f => trivial
    | boolean f => exact absurd hcol id
    | undefined => exact absurd hcol id
  have h2 := arraySort_column col _ hcol2
  exact ⟨h1.1, h1.2.1, rfl, h2.2.2.1, h2.2.2.2, rfl⟩

/-- After `sortTable` has sorted a column ascending, the column is the
ascending sort column. -/
theorem isAscending_sortedState (column : String) :
    isAscending (sortedState column false) column = true := by
  simp [isAscending, sortedState]

/-- The store `sortTable` leaves for the patients. -/
theorem sortTable_patients (column : String) (s : App) :
    (sortTable .patients column s).hospitalData =
      { s.hospitalData with
        patients := arraySort
          (sortComparator (patientColumn column).lt
            (isAscending s.hospitalData.patientsSort column)) s.hospitalData.patients
        patientsSort := sortedState column (isAscending s.hospitalData.patientsSort column) } := by
  unfold sortTable
  simp only []
  rw [(renderPatients_frame _ _).1]

/-- The store `sortTable` leaves for the appointments. -/
theorem sortTable_appointments (column : String) (s : App) :
    (sortTable .appointments column s).hospitalData =
      { s.hospitalData with
        appointments := arraySort
          (sortComparator (appointmentColumn column).lt
            (isAscending s.hospitalData.appointmentsSort column)) s.hospitalData.appointments
        appointmentsSort :=
          sortedState column (isAscending s.hospitalData.appointmentsSort column) } := by
  unfold sortTable
  simp only []
  rw [(renderAppointments_frame _ _).1]

/-- C15. `sortTable` toggles between ascending and descending. For each of
the four collections and a column whose values are all numbers or all
strings, a call on a column that is not the ascending sort column leaves the
collection a permutation of its input sorted ascending by the column, with
sort state `(column, 'asc')`, and a second call on the same column right
after leaves it a permutation sorted descending, with sort state
`(column, 'desc')`. -/
theorem sortTable_toggles (column : String) (s : App) :
    (AllNumbersOrAllStrings (patientColumn column) s.hospitalData.patients →
        isAscending s.hospitalData.patientsSort column = false →
        TogglesOrder (patientColumn column) column s.hospitalData.patients
          (sortTable .patients column s).hospitalData.patients
          (sortTable .patients column (sortTable .patients column s)).hospitalData.patients
          (sortTable .patients column s).hospitalData.patientsSort
          (sortTable .patients column (sortTable .patients column s)).hospitalData.patientsSort) ∧
      (AllNumbersOrAllStrings (doctorColumn column) s.hospitalData.doctors →
        isAscending s.hospitalData.doctorsSort column = false →
        TogglesOrder (doctorColumn column) column s.hospitalData.doctors
          (sortTable .doctors column s).hospitalData.doctors
          (sortTable .doctors column (sortTable .doctors column s)).hospitalData.doctors
          (sortTable .doctors column s).hospitalData.doctorsSort
          (sortTable .doctors column (sortTable .doctors column s)).hospitalData.doctorsSort) ∧
      (AllNumbersOrAllStrings (departmentColumn column) s.hospitalData.departments →
        isAscending s.hospitalData.departmentsSort column = false →
        TogglesOrder (departmentColumn column) column s.hospitalData.departments
          (sortTable .departments column s).hospitalData.departments
          (sortTable .departments column
            (sortTable .departments column s)).hospitalData.departments
          (sortTable .departments column s).hospitalData.departmentsSort
          (sortTable .departments column
            (sortTable .departments column s)).hospitalData.departmentsSort) ∧
      (AllNumbersOrAllStrings (appointmentColumn column) s.hospitalData.appointments →
        isAscending s.hospitalData.appointmentsSort column = false →
        TogglesOrder (appointmentColumn column) column s.hospitalData.appointments
          (sortTable .appointments column s).hospitalData.appointments
          (sortTable .appointments column
            (sortTable .appointments column s)).hospitalData.appointments
          (sortTable .appointments column s).hospitalData.appointmentsSort
          (sortTable .appointments column
            (sortTable .appointments column s)).hospitalData.appointmentsSort) := by
  refine ⟨?_, ?_, ?_, ?_⟩
  · intro hcol hasc
    rw [sortTable_patients column (sortTable .patients column s), sortTable_patients column s]
    simp only [hasc, isAscending_sortedState]
    exact arraySort_toggles _ column _ hcol
  · intro hcol hasc
    unfold sortTable
    simp only [hasc, isAscending_sortedState]
    exact arraySort_toggles _ column _ hcol
  · intro hcol hasc
    unfold sortTable
    simp only [hasc, isAscending_sortedState]
    exact arraySort_toggles _ column _ hcol
  · intro hcol hasc
    rw [sortTable_appointments column (sortTable .appointments column s),
      sortTable_appointments column s]
    simp only [hasc, isAscending_sortedState]
    exact arraySort_toggles _ column _ hcol

/-- On the sample page, whose appointments 1, 2 and 5 have the statuses
Pending, Completed and Pending, sorting by status gives the order 2, 1, 5 and
sorting by status again gives the order 1, 5, 2, with the sort state
`(status, 'asc')` and then `(status, 'desc')`. -/
theorem sortTable_toggles_sample :
    isAscending sampleApp.hospitalData.appointmentsSort "status" = false ∧
      (sortTable .appointments "status" sampleApp).hospitalData.appointments.map
        (fun a => a.appt_id) = [2, 1, 5] ∧
      (sortTable .appointments "status" sampleApp).hospitalData.appointmentsSort =
        { _sortColumn := some "status", _sortOrder := some "asc" } ∧
      (sortTable .appointments "status"
        (sortTable .appointments "status" sampleApp)).hospitalData.appointments.map
        (fun a => a.appt_id) = [1, 5, 2] ∧
      (sortTable .appointments "status"
        (sortTable .appointments "status" sampleApp)).hospitalData.appointmentsSort =
        { _sortColumn := some "status", _sortOrder := some "desc" } := by
  have hcol : AllNumbersOrAllStrings (appointmentColumn "status")
      sampleApp.hospitalData.appointments := by
    simp [AllNumbersOrAllStrings, appointmentColumn]
  have h := (sortTable_toggles "status" sampleApp).2.2.2 hcol (by decide)
  exact ⟨by decide, by decide, h.2.2.1, by decide, h.2.2.2.2.2⟩

end Hospital
